import Mathlib

/-!
Shallow embedding of the nagyf/chip8 CHIP-8 emulator (Rust sources:
`cpu.rs`, `display.rs`, `vga_13h_buffer.rs`, `ram.rs`, `chip8.rs`).

Conventions of the embedding:
* Machine integers (`u8`, `u16`, `usize`) are modelled as `Nat`; wherever the
  Rust source performs explicitly wrapping arithmetic (`wrapping_add`,
  `wrapping_sub`, `u8` shifts) the embedding takes the result modulo the
  width.  Wherever the source performs plain `+`/`-` on a sized integer
  (which panics on overflow/underflow in the default debug profile) or an
  out-of-bounds slice/array index (which always panics), the embedding
  returns an `Except` error: those panics are the "fatal" conditions the
  program's own documentation describes.
* Arrays indexed by machine integers (`[u8; 4096]` memory, the 320x200 VGA
  byte buffer, the `[u16; 16]` stack, the `[u8; 16]` register file) are
  modelled as total functions out of `Nat` together with explicit bounds
  guards exactly where the Rust indexing expressions sit.
-/

namespace Chip8

/-! ### VGA byte buffer (`vga_13h_buffer.rs`)

The 320x200 byte framebuffer behind the global `WRITER`.  A buffer maps an
`(x, y)` device coordinate to the byte stored there (`Writer.read_byte` /
`Writer.write_byte` index `buffer.data[y][x]`). -/

/-- Device framebuffer contents: `w x y` is the byte at column `x`, row `y`. -/
def Buffer : Type := Nat → Nat → Nat

/-- `Writer::read_byte`: `self.buffer.data[y as usize][x as usize].read()`. -/
def read_byte (w : Buffer) (x y : Nat) : Nat := w x y

/-- `Writer::write_byte`: `self.buffer.data[y][x].write(byte)`. -/
def write_byte (w : Buffer) (x y b : Nat) : Buffer :=
  fun a c => if a = x ∧ c = y then b else w a c

/-- `Writer::xor_byte`: reads the old byte, writes `old_value ^ byte`, and
returns `old_value != 0`. -/
def xor_byte (w : Buffer) (x y b : Nat) : Buffer × Bool :=
  (write_byte w x y (Nat.xor (read_byte w x y) b), read_byte w x y != 0)

/-! ### Display (`display.rs`)

`WIDTH = 64`, `HEIGHT = 32`, `MULTIPLIER = 5`.  A chip pixel `(x, y)` is
projected onto the 5x5 block of device cells `(x*5+i, y*5+j)`,
`i, j ∈ [0, 5)`, in the `i`-major order of the two nested `for` loops of
`Display::xor_pixel` / `Display::set_pixel`. -/

/-- The 25 device cells of the 5x5 block for chip pixel `(x, y)`, in the
order the nested `for i { for j { ... } }` loops of `display.rs` visit
them. -/
def pixelOps (x y : Nat) : List (Nat × Nat) :=
  (List.range 5).flatMap fun i =>
    (List.range 5).map fun j => (x * 5 + i, y * 5 + j)

/-- One `collision |= writer.xor_byte(..)` step: XOR the color byte `c` into
device cell `p` and OR the returned flag into the accumulator. -/
def stepCell (c : Nat) (s : Buffer × Bool) (p : Nat × Nat) : Buffer × Bool :=
  ((xor_byte s.1 p.1 p.2 c).1, s.2 || (xor_byte s.1 p.1 p.2 c).2)

/-- `Display::xor_pixel`: XORs the color byte into the 25 device cells of
chip pixel `(x, y)`, returning the new buffer and whether any of those
cells was previously nonzero. -/
def xor_pixel (w : Buffer) (x y c : Nat) : Buffer × Bool :=
  (pixelOps x y).foldl (stepCell c) (w, false)

/-- The chip pixels set by the sprite, in the order `Display::draw` visits
them (`row` outer, `column` inner, bits taken from the high end,
coordinates wrapped modulo 64 / 32).  `sprite.getD row 0` is `sprite[row]`,
in range because `row < sprite.length`. -/
def spriteCells (x y : Nat) (sprite : List Nat) : List (Nat × Nat) :=
  (List.range sprite.length).flatMap fun row =>
    (List.range 8).filterMap fun column =>
      if Nat.land (sprite.getD row 0 >>> (7 - column)) 0x01 = 1 then
        some ((x + column) % 64, (y + row) % 32)
      else none

/-- One `collision |= self.xor_pixel(..)` iteration of `Display::draw`. -/
def drawStep (c : Nat) (s : Buffer × Bool) (p : Nat × Nat) : Buffer × Bool :=
  ((xor_pixel s.1 p.1 p.2 c).1, s.2 || (xor_pixel s.1 p.1 p.2 c).2)

/-- `Display::draw`: for each sprite row and each set bit, XOR-draw the chip
pixel via `xor_pixel`, accumulating `collision |= ...`; returns the final
buffer and collision flag.  `c` is `self.color as u8`. -/
def draw (w : Buffer) (x y : Nat) (sprite : List Nat) (c : Nat) : Buffer × Bool :=
  (spriteCells x y sprite).foldl (drawStep c) (w, false)

/-- All device cells a `draw` call XORs, in execution order. -/
def drawOps (x y : Nat) (sprite : List Nat) : List (Nat × Nat) :=
  (spriteCells x y sprite).flatMap fun p => pixelOps p.1 p.2

/-- Buffer effect of XOR-ing the byte `c` into each cell of `L` in order. -/
def applyXors (c : Nat) (L : List (Nat × Nat)) (w : Buffer) : Buffer :=
  L.foldl (fun b p => (xor_byte b p.1 p.2 c).1) w

/-- `Display::set_pixel`: writes the color byte into all 25 device cells of
chip pixel `(x, y)`. -/
def set_pixel (w : Buffer) (x y c : Nat) : Buffer :=
  (pixelOps x y).foldl (fun b p => write_byte b p.1 p.2 c) w

/-- `Display::clear`: paints every chip pixel with `Color::Black`.
Modelled from the spec for the byte value: `color.rs` is not among the
sources; per the spec `clear` "sets every logical pixel off", so the black
color byte is 0. -/
def clear (w : Buffer) : Buffer :=
  (List.range 64).foldl
    (fun b i => (List.range 32).foldl (fun b j => set_pixel b i j 0) b) w

/-! ### Keyboard

Modelled from the spec: `keyboard.rs` is declared in `lib.rs` but is not
among the sources.  Per spec §4.4, the keyboard tracks the pressed state of
the 16 logical keys (`is_pressed`/`is_released` are pure queries, one the
negation of the other) and `wait_key` blocks until some key is pressed and
returns its value; the blocking is modelled by the `nextKey` oracle field
holding the key that the call eventually returns. -/

/-- Keyboard state: pressed-key predicate plus the key `wait_key` returns. -/
structure Keyboard where
  pressed : Nat → Bool
  nextKey : Nat

/-- Modelled from the spec: `Keyboard::is_pressed`, a pure query. -/
def is_pressed (k : Keyboard) (key : Nat) : Bool := k.pressed key

/-- Modelled from the spec: `Keyboard::is_released`, a pure query. -/
def is_released (k : Keyboard) (key : Nat) : Bool := !(k.pressed key)

/-- Modelled from the spec: `Keyboard::wait_key` returns the value of the
key whose press ends the wait. -/
def wait_key (k : Keyboard) : Nat := k.nextKey

/-! ### Machine state and faults (`cpu.rs`, `ram.rs`) -/

/-- Fatal conditions: the panics the Rust program can hit (debug profile). -/
inductive Err where
  /-- the abort in the catch-all match arm of `process_opcode`. -/
  | unknownOpcode (op : Nat)
  /-- index out of bounds on the 16-entry `stack` array. -/
  | stackIndex (idx : Nat)
  /-- `self.sp -= 1` underflow on the `u8` stack pointer. -/
  | spUnderflow
  /-- index out of bounds on the 4096-byte memory array or a slice of it. -/
  | memIndex (idx : Nat)
  /-- overflow of a non-wrapping `u16`/`u8` addition (`pc += 2`, `i += ..`,
  `sp += 1`). -/
  | addOverflow
deriving DecidableEq, Repr

/-- The whole mutable state `execute_cycle` touches: the `Cpu` struct fields
(`i`, `pc`, `v`, `stack`, `sp`, `dt`, `st`), the `Ram` byte array, the
keyboard, and the display (its VGA buffer plus its fixed foreground color
byte — `Color::White as u8`; `color.rs` is not among the sources, so the
concrete byte is kept abstract as the field `color`).  `randByte` is an
oracle for the byte `rand::thread_rng().gen_range(0, 255)` yields to the
`Cxkk` arm. -/
structure Machine where
  i : Nat
  pc : Nat
  v : Nat → Nat
  stack : Nat → Nat
  sp : Nat
  dt : Nat
  st : Nat
  mem : Nat → Nat
  keyboard : Keyboard
  buf : Buffer
  color : Nat
  randByte : Nat

/-- Write register `Vx` (all register indexes in `cpu.rs` are 4-bit
nibbles, so the `usize` index is always in range and cannot panic). -/
def writeV (v : Nat → Nat) (x val : Nat) : Nat → Nat :=
  fun j => if j = x then val else v j

/-- Guarded read of the 16-entry `stack` array. -/
def readStack (stack : Nat → Nat) (idx : Nat) : Except Err Nat :=
  if idx < 16 then .ok (stack idx) else .error (.stackIndex idx)

/-- Guarded write of the 16-entry `stack` array. -/
def writeStack (stack : Nat → Nat) (idx val : Nat) : Except Err (Nat → Nat) :=
  if idx < 16 then .ok (fun j => if j = idx then val else stack j)
  else .error (.stackIndex idx)

/-- Guarded read of the 4096-byte `ram.memory` array. -/
def readMem (mem : Nat → Nat) (a : Nat) : Except Err Nat :=
  if a < 4096 then .ok (mem a) else .error (.memIndex a)

/-- Guarded write of the 4096-byte `ram.memory` array. -/
def writeMem (mem : Nat → Nat) (a val : Nat) : Except Err (Nat → Nat) :=
  if a < 4096 then .ok (fun j => if j = a then val else mem j)
  else .error (.memIndex a)

/-- Non-wrapping `u16` addition: panics (faults) on overflow in the debug
profile. -/
def addU16 (a b : Nat) : Except Err Nat :=
  if a + b ≤ 0xFFFF then .ok (a + b) else .error .addOverflow

/-- Non-wrapping `u8` addition (used for `self.sp += 1`). -/
def addU8 (a b : Nat) : Except Err Nat :=
  if a + b ≤ 0xFF then .ok (a + b) else .error .addOverflow

/-- Non-wrapping `u8` subtraction (used for `self.sp -= 1`): panics
(faults) on underflow in the debug profile. -/
def subU8 (a b : Nat) : Except Err Nat :=
  if b ≤ a then .ok (a - b) else .error .spUnderflow

/-- `u8::wrapping_add`. -/
def wrapAdd8 (a b : Nat) : Nat := (a + b) % 256

/-- `u8::wrapping_sub` (operands are byte values `< 256`). -/
def wrapSub8 (a b : Nat) : Nat := (a + 256 - b % 256) % 256

/-- `read_word`: big-endian two-byte fetch,
`(memory[i] as u16) << 8 | (memory[i + 1] as u16)`. -/
def read_word (memory : Nat → Nat) (index : Nat) : Except Err Nat := do
  let hi ← readMem memory index
  let lo ← readMem memory (index + 1)
  .ok (Nat.lor (hi <<< 8) lo)

/-! ### Opcode dispatch (`Cpu::process_opcode`)

The Rust `match` tries its arms top to bottom; each pattern is an inclusive
numeric range.  The embedding factors the match into `armOf` — the ordered
guard chain, one inclusive-range (or equality) test per arm, in source
order — and `applyArm`, the arm bodies.  An if-chain whose first succeeding
test wins is exactly the Rust ordered-match semantics. -/

/-- One constructor per arm of the `match` in `Cpu::process_opcode`, in
source order, named after the instruction each arm's comment documents. -/
inductive Arm where
  | cls | ret | jp | call | se_byte | sne_byte | se_reg | ld_byte
  | add_byte | ld_reg | or_reg | and_reg | xor_reg | add_reg | sub_reg
  | shr | subn | shl | sne_reg | ld_i | jp_v0 | rnd | drw | skp | sknp
  | ld_dt | ld_key | set_dt | set_st | add_i | ld_font | bcd
  | st_regs | ld_regs | unknown
deriving DecidableEq, Repr

/-- The guard chain of the `match` in `Cpu::process_opcode`: the arm whose
(inclusive) range pattern is the first to contain `op`. -/
def armOf (op : Nat) : Arm :=
  if op = 0x00E0 then .cls
  else if op = 0x00EE then .ret
  else if 0x1000 ≤ op ∧ op ≤ 0x1FFF then .jp
  else if 0x2000 ≤ op ∧ op ≤ 0x2FFF then .call
  else if 0x3000 ≤ op ∧ op ≤ 0x3FFF then .se_byte
  else if 0x4000 ≤ op ∧ op ≤ 0x4FFF then .sne_byte
  else if 0x5000 ≤ op ∧ op ≤ 0x5FFF then .se_reg
  else if 0x6000 ≤ op ∧ op ≤ 0x6FFF then .ld_byte
  else if 0x7000 ≤ op ∧ op ≤ 0x7FFF then .add_byte
  else if 0x8000 ≤ op ∧ op ≤ 0x8FF0 then .ld_reg
  else if 0x8001 ≤ op ∧ op ≤ 0x8FF1 then .or_reg
  else if 0x8002 ≤ op ∧ op ≤ 0x8FF2 then .and_reg
  else if 0x8003 ≤ op ∧ op ≤ 0x8FF3 then .xor_reg
  else if 0x8004 ≤ op ∧ op ≤ 0x8FF4 then .add_reg
  else if 0x8005 ≤ op ∧ op ≤ 0x8FF5 then .sub_reg
  else if 0x8006 ≤ op ∧ op ≤ 0x8FF6 then .shr
  else if 0x8007 ≤ op ∧ op ≤ 0x8FF7 then .subn
  else if 0x800E ≤ op ∧ op ≤ 0x8FFE then .shl
  else if 0x9000 ≤ op ∧ op ≤ 0x9FF0 then .sne_reg
  else if 0xA000 ≤ op ∧ op ≤ 0xAFFF then .ld_i
  else if 0xB000 ≤ op ∧ op ≤ 0xBFFF then .jp_v0
  else if 0xC000 ≤ op ∧ op ≤ 0xCFFF then .rnd
  else if 0xD000 ≤ op ∧ op ≤ 0xDFFF then .drw
  else if 0xE09E ≤ op ∧ op ≤ 0xEF9E then .skp
  else if 0xE0A1 ≤ op ∧ op ≤ 0xEFA1 then .sknp
  else if 0xF007 ≤ op ∧ op ≤ 0xFF07 then .ld_dt
  else if 0xF00A ≤ op ∧ op ≤ 0xFF0A then .ld_key
  else if 0xF015 ≤ op ∧ op ≤ 0xFF15 then .set_dt
  else if 0xF018 ≤ op ∧ op ≤ 0xFF18 then .set_st
  else if 0xF01E ≤ op ∧ op ≤ 0xFF1E then .add_i
  else if 0xF029 ≤ op ∧ op ≤ 0xFF29 then .ld_font
  else if 0xF033 ≤ op ∧ op ≤ 0xFF33 then .bcd
  else if 0xF055 ≤ op ∧ op ≤ 0xFF55 then .st_regs
  else if 0xF065 ≤ op ∧ op ≤ 0xFF65 then .ld_regs
  else .unknown

/-- `Fx55` loop body: `for i in 0..x { ram.memory[self.i + i] = self.v[i] }`
(note the exclusive upper bound, as in the source). -/
def store_regs (mem : Nat → Nat) (v : Nat → Nat) (base x : Nat) :
    Except Err (Nat → Nat) :=
  (List.range x).foldlM (fun mm k => writeMem mm (base + k) (v k)) mem

/-- `Fx65` loop body: `for i in 0..x { self.v[i] = ram.memory[self.i + i] }`
(exclusive upper bound, as in the source). -/
def load_regs (mem : Nat → Nat) (v : Nat → Nat) (base x : Nat) :
    Except Err (Nat → Nat) :=
  (List.range x).foldlM
    (fun vv k => do
      let b ← readMem mem (base + k)
      pure (writeV vv k b))
    v

/-- The bodies of the `match` arms of `Cpu::process_opcode`, applied to the
machine and to the (already fetched) opcode.  `m.pc` has already been
advanced by 2 by `execute_cycle` when a body runs. -/
def applyArm (a : Arm) (m : Machine) (op : Nat) : Except Err Machine :=
  match a with
  | .cls =>
      -- 00E0: display.clear()
      .ok { m with buf := clear m.buf }
  | .ret => do
      -- 00EE: self.pc = self.stack[self.sp as usize]; self.sp -= 1;
      let addr ← readStack m.stack m.sp
      let sp' ← subU8 m.sp 1
      .ok { m with pc := addr, sp := sp' }
  | .jp =>
      -- 1nnn: self.pc = opcode & 0x0FFF;
      .ok { m with pc := Nat.land op 0x0FFF }
  | .call => do
      -- 2nnn: self.sp += 1; self.stack[self.sp] = self.pc; self.pc = nnn;
      let sp' ← addU8 m.sp 1
      let stack' ← writeStack m.stack sp' m.pc
      .ok { m with sp := sp', stack := stack', pc := Nat.land op 0x0FFF }
  | .se_byte =>
      -- 3xkk: if self.v[x] == kk { self.pc += 2 }
      let x := Nat.land op 0x0F00 >>> 8
      let value := Nat.land op 0x00FF
      if m.v x = value then do
        let pc' ← addU16 m.pc 2
        .ok { m with pc := pc' }
      else .ok m
  | .sne_byte =>
      -- 4xkk: if self.v[x] != kk { self.pc += 2 }
      let x := Nat.land op 0x0F00 >>> 8
      let value := Nat.land op 0x00FF
      if m.v x ≠ value then do
        let pc' ← addU16 m.pc 2
        .ok { m with pc := pc' }
      else .ok m
  | .se_reg =>
      -- 5xy0 arm: if self.v[x] == self.v[y] { self.pc += 2 }
      let x := Nat.land op 0x0F00 >>> 8
      let y := Nat.land op 0x00F0 >>> 4
      if m.v x = m.v y then do
        let pc' ← addU16 m.pc 2
        .ok { m with pc := pc' }
      else .ok m
  | .ld_byte =>
      -- 6xkk: self.v[x] = kk;
      let x := Nat.land op 0x0F00 >>> 8
      let kk := Nat.land op 0x00FF
      .ok { m with v := writeV m.v x kk }
  | .add_byte =>
      -- 7xkk: self.v[x] = self.v[x].wrapping_add(kk);
      let x := Nat.land op 0x0F00 >>> 8
      let kk := Nat.land op 0x00FF
      .ok { m with v := writeV m.v x (wrapAdd8 (m.v x) kk) }
  | .ld_reg =>
      -- 0x8000...0x8FF0 arm: self.v[x] = self.v[y];
      let x := Nat.land op 0x0F00 >>> 8
      let y := Nat.land op 0x00F0 >>> 4
      .ok { m with v := writeV m.v x (m.v y) }
  | .or_reg =>
      -- 0x8001...0x8FF1 arm: self.v[x] = self.v[x] | self.v[y];
      let x := Nat.land op 0x0F00 >>> 8
      let y := Nat.land op 0x00F0 >>> 4
      .ok { m with v := writeV m.v x (Nat.lor (m.v x) (m.v y)) }
  | .and_reg =>
      -- 0x8002...0x8FF2 arm: self.v[x] = self.v[x] & self.v[y];
      let x := Nat.land op 0x0F00 >>> 8
      let y := Nat.land op 0x00F0 >>> 4
      .ok { m with v := writeV m.v x (Nat.land (m.v x) (m.v y)) }
  | .xor_reg =>
      -- 0x8003...0x8FF3 arm: self.v[x] = self.v[x] ^ self.v[y];
      let x := Nat.land op 0x0F00 >>> 8
      let y := Nat.land op 0x00F0 >>> 4
      .ok { m with v := writeV m.v x (Nat.xor (m.v x) (m.v y)) }
  | .add_reg =>
      -- 0x8004...0x8FF4 arm: the carry is computed from the original
      -- values, written to VF first, and only then is
      -- `self.v[x] = self.v[x].wrapping_add(self.v[y])` evaluated, so the
      -- operand reads of that line see the updated VF when x or y is 0xF.
      let x := Nat.land op 0x0F00 >>> 8
      let y := Nat.land op 0x00F0 >>> 4
      let result := m.v x + m.v y
      let v1 := writeV m.v 0xF (if result > 255 then 1 else 0)
      .ok { m with v := writeV v1 x (wrapAdd8 (v1 x) (v1 y)) }
  | .sub_reg =>
      -- 0x8005...0x8FF5 arm: xx and yy are read into locals before the VF
      -- write; VF = if xx > yy { 1 } else { 0 }; v[x] = xx - yy wrapping.
      let x := Nat.land op 0x0F00 >>> 8
      let y := Nat.land op 0x00F0 >>> 4
      let xx := m.v x
      let yy := m.v y
      let v1 := writeV m.v 0xF (if xx > yy then 1 else 0)
      .ok { m with v := writeV v1 x (wrapSub8 xx yy) }
  | .shr =>
      -- 0x8006...0x8FF6 arm: VF = v[x] & 1; then v[x] = v[x] >> 1 where
      -- the second read sees the VF write when x = 0xF.
      let x := Nat.land op 0x0F00 >>> 8
      let v1 := writeV m.v 0xF (if Nat.land (m.v x) 0x01 > 0 then 1 else 0)
      .ok { m with v := writeV v1 x (v1 x >>> 1) }
  | .subn =>
      -- 0x8007...0x8FF7 arm: VF = if yy > xx { 1 } else { 0 };
      -- v[x] = yy - xx wrapping (locals read before the VF write).
      let x := Nat.land op 0x0F00 >>> 8
      let y := Nat.land op 0x00F0 >>> 4
      let xx := m.v x
      let yy := m.v y
      let v1 := writeV m.v 0xF (if yy > xx then 1 else 0)
      .ok { m with v := writeV v1 x (wrapSub8 yy xx) }
  | .shl =>
      -- 0x800E...0x8FFE arm: VF = high bit of v[x]; then v[x] = v[x] << 1
      -- (u8 shift, result truncated to 8 bits), the second read seeing the
      -- VF write when x = 0xF.
      let x := Nat.land op 0x0F00 >>> 8
      let v1 := writeV m.v 0xF (if Nat.land (m.v x) 0x80 > 0 then 1 else 0)
      .ok { m with v := writeV v1 x ((v1 x <<< 1) % 256) }
  | .sne_reg =>
      -- 9xy0 arm: if self.v[x] != self.v[y] { self.pc += 2 }
      let x := Nat.land op 0x0F00 >>> 8
      let y := Nat.land op 0x00F0 >>> 4
      if m.v x ≠ m.v y then do
        let pc' ← addU16 m.pc 2
        .ok { m with pc := pc' }
      else .ok m
  | .ld_i =>
      -- Annn: self.i = opcode & 0x0FFF;
      .ok { m with i := Nat.land op 0x0FFF }
  | .jp_v0 =>
      -- Bnnn: self.pc = (self.v[0] as u16).wrapping_add(delta);
      let delta := Nat.land op 0x0FFF
      .ok { m with pc := (m.v 0 + delta) % 65536 }
  | .rnd =>
      -- Cxkk: self.v[x] = kk & random;  the random byte is the machine's
      -- oracle field.
      let x := Nat.land op 0x0F00 >>> 8
      let kk := Nat.land op 0x00FF
      .ok { m with v := writeV m.v x (Nat.land kk m.randByte) }
  | .drw =>
      -- Dxyn: the x and y NIBBLES (not the register values) are passed to
      -- display.draw as coordinates, and the returned collision flag is
      -- discarded — VF is not written.  The slice
      -- `&ram.memory[from..to]` panics when `to` exceeds 4096.
      let x := Nat.land op 0x0F00 >>> 8
      let y := Nat.land op 0x00F0 >>> 4
      let n := Nat.land op 0x000F
      if m.i + n ≤ 4096 then
        let bytes := (List.range n).map fun k => m.mem (m.i + k)
        let r := draw m.buf x y bytes m.color
        .ok { m with buf := r.1 }
      else .error (.memIndex (m.i + n))
  | .skp =>
      -- Ex9E arm: if keyboard.is_pressed(self.v[x]) { self.pc += 2 }
      let x := Nat.land op 0x0F00 >>> 8
      if is_pressed m.keyboard (m.v x) then do
        let pc' ← addU16 m.pc 2
        .ok { m with pc := pc' }
      else .ok m
  | .sknp =>
      -- ExA1 arm: if keyboard.is_released(self.v[x]) { self.pc += 2 }
      let x := Nat.land op 0x0F00 >>> 8
      if is_released m.keyboard (m.v x) then do
        let pc' ← addU16 m.pc 2
        .ok { m with pc := pc' }
      else .ok m
  | .ld_dt =>
      -- 0xF007...0xFF07 arm: self.v[x] = self.dt;
      let x := Nat.land op 0x0F00 >>> 8
      .ok { m with v := writeV m.v x m.dt }
  | .ld_key =>
      -- 0xF00A...0xFF0A arm: self.v[x] = keyboard.wait_key();
      let x := Nat.land op 0x0F00 >>> 8
      .ok { m with v := writeV m.v x (wait_key m.keyboard) }
  | .set_dt =>
      -- 0xF015...0xFF15 arm: self.dt = self.v[x];
      let x := Nat.land op 0x0F00 >>> 8
      .ok { m with dt := m.v x }
  | .set_st =>
      -- 0xF018...0xFF18 arm: self.st = self.v[x];
      let x := Nat.land op 0x0F00 >>> 8
      .ok { m with st := m.v x }
  | .add_i => do
      -- 0xF01E...0xFF1E arm: self.i += self.v[x] as u16;
      let x := Nat.land op 0x0F00 >>> 8
      let i' ← addU16 m.i (m.v x)
      .ok { m with i := i' }
  | .ld_font =>
      -- 0xF029...0xFF29 arm: body is only a TODO comment — a no-op.
      .ok m
  | .bcd => do
      -- 0xF033...0xFF33 arm: BCD of v[x] into memory[i], [i+1], [i+2].
      let x := Nat.land op 0x0F00 >>> 8
      let num := m.v x
      let m1 ← writeMem m.mem m.i (num / 100)
      let m2 ← writeMem m1 (m.i + 1) (num % 100 / 10)
      let m3 ← writeMem m2 (m.i + 2) (num % 100 % 10)
      .ok { m with mem := m3 }
  | .st_regs => do
      -- 0xF055...0xFF55 arm: store V0..V(x-1) at memory[i..i+x).
      let x := Nat.land op 0x0F00 >>> 8
      let mem' ← store_regs m.mem m.v m.i x
      .ok { m with mem := mem' }
  | .ld_regs => do
      let x := Nat.land op 0x0F00 >>> 8
      let v' ← load_regs m.mem m.v m.i x
      .ok { m with v := v' }
  | .unknown =>
      -- catch-all arm: aborts with the offending opcode.
      .error (.unknownOpcode op)

/-- `Cpu::process_opcode`: dispatch the opcode through the ordered match
(`armOf`) to the matching arm's body (`applyArm`). -/
def process_opcode (m : Machine) (op : Nat) : Except Err Machine :=
  applyArm (armOf op) m op

/-- `Cpu::execute_cycle`: fetch the big-endian opcode at `pc`, advance `pc`
by 2, then process the opcode. -/
def execute_cycle (m : Machine) : Except Err Machine := do
  let opcode ← read_word m.mem m.pc
  let pc' ← addU16 m.pc 2
  process_opcode { m with pc := pc' } opcode

/-- Run `n` consecutive cycles (the driver loop of `chip8.rs`/`main.rs`). -/
def cycles : Nat → Machine → Except Err Machine
  | 0, m => .ok m
  | n + 1, m => do
      let m' ← execute_cycle m
      cycles n m'

/-- The reset machine (`Cpu::new`/`Cpu::reset` plus `Ram::new`): `pc` at
0x200, every register, stack slot and timer zero; `rom` is the memory image
installed by `Ram::load_rom`, and the collaborator state (keyboard oracle,
framebuffer contents, color byte, random oracle) is passed in. -/
def resetMachine (rom : Nat → Nat) (k : Keyboard) (w : Buffer)
    (color randByte : Nat) : Machine :=
  { i := 0, pc := 0x200, v := fun _ => 0, stack := fun _ => 0, sp := 0,
    dt := 0, st := 0, mem := rom, keyboard := k, buf := w, color := color,
    randByte := randByte }

/-! ### Derived notions and concrete states used by the verification -/

/-- Does this match arm belong to the OR/AND/XOR/ADD/SUB/SHR/SUBN/SHL
family (the arithmetic/logic arms after the `8xy0` one)? -/
def isArith : Arm → Bool
  | .or_reg | .and_reg | .xor_reg | .add_reg
  | .sub_reg | .shr | .subn | .shl => true
  | _ => false

/-- Does this match arm belong to the wait-key / timer-set / sound-set /
add-to-I / font / BCD / register-store / register-load family (the `0xF`
arms after the `Fx07` one)? -/
def isLateF : Arm → Bool
  | .ld_key | .set_dt | .set_st | .add_i
  | .ld_font | .bcd | .st_regs | .ld_regs => true
  | _ => false

/-- Register `Vj` of the machine an `Except` computation produced, if it
succeeded. -/
def vAfter (r : Except Err Machine) (j : Nat) : Option Nat :=
  match r with
  | .ok m => some (m.v j)
  | .error _ => none

/-- Memory byte at `a` of the machine a computation produced. -/
def memAfter (r : Except Err Machine) (a : Nat) : Option Nat :=
  match r with
  | .ok m => some (m.mem a)
  | .error _ => none

/-- Framebuffer byte at `(x, y)` of the machine a computation produced. -/
def bufAfter (r : Except Err Machine) (x y : Nat) : Option Nat :=
  match r with
  | .ok m => some (m.buf x y)
  | .error _ => none

/-- Stack pointer of the machine a computation produced. -/
def spAfter (r : Except Err Machine) : Option Nat :=
  match r with
  | .ok m => some m.sp
  | .error _ => none

/-- A keyboard with no key pressed. -/
def kbdOff : Keyboard := ⟨fun _ => false, 0⟩

/-- The all-zero (cleared) framebuffer. -/
def bufZero : Buffer := fun _ _ => 0

/-- A framebuffer with every byte 1 (every device cell lit). -/
def bufOnes : Buffer := fun _ _ => 1

/-- A framebuffer whose 5x5 block at the origin — the block of chip pixel
(0, 0) — holds exactly the color byte 15, everything else dark. -/
def bufBlock : Buffer := fun x y => if x < 5 ∧ y < 5 then 15 else 0

/-- The 8-byte ROM of the spec's end-to-end scenario,
`60 0A 61 05 80 14 00 00`, loaded at 0x200. -/
def romAddDemo : Nat → Nat := fun a =>
  if a = 0x200 then 0x60 else if a = 0x201 then 0x0A
  else if a = 0x202 then 0x61 else if a = 0x203 then 0x05
  else if a = 0x204 then 0x80 else if a = 0x205 then 0x14 else 0

/-- The reset machine with the scenario ROM loaded (color byte 15). -/
def machAddDemo : Machine := resetMachine romAddDemo kbdOff bufZero 15 0

/-- A ROM that is a chain of 16 `CALL` instructions: the instruction at
`0x200 + 2k` is `2nnn` with `nnn = 0x202 + 2k`, so each call jumps to the
next one. -/
def romCallChain : Nat → Nat := fun a =>
  if 0x200 ≤ a ∧ a ≤ 0x21F then (if a % 2 = 0 then 0x22 else a - 0x1FF)
  else 0

/-- The reset machine with the call-chain ROM loaded. -/
def machCallChain : Machine := resetMachine romCallChain kbdOff bufZero 15 0

/-- State for the `Dxyn` demonstration: `V0 = 7`, `V1 = 9`, `I = 0x300`,
sprite byte `0x80` at `0x300`, opcode `D011` at `0x200`, every framebuffer
byte lit, color byte 15. -/
def machDrw : Machine :=
  { i := 0x300, pc := 0x200,
    v := (fun j => if j = 0 then 7 else if j = 1 then 9 else 0),
    stack := (fun _ => 0), sp := 0, dt := 0, st := 0,
    mem := (fun a =>
      if a = 0x300 then 0x80 else if a = 0x200 then 0xD0
      else if a = 0x201 then 0x11 else 0),
    keyboard := kbdOff, buf := bufOnes, color := 15, randByte := 0 }

/-- State with `V0 = 10`, `V1 = 5` (the `8xy4`/`8xy5` operand demo). -/
def machAdd1 : Machine :=
  { machDrw with v := (fun j => if j = 0 then 10 else if j = 1 then 5 else 0) }

/-- State with `VF = 200` and every other register 0 (for `0x8FF4`). -/
def machAddAlias : Machine :=
  { machDrw with v := (fun j => if j = 15 then 200 else 0) }

/-- State with every register equal to 5 (equal-operands subtraction). -/
def machSubEq : Machine :=
  { machDrw with v := (fun _ => 5) }

/-- State with `sp = 15`: fifteen nested calls deep. -/
def machSpFull : Machine :=
  { machDrw with sp := 15 }

/-- State for the `Fx33` scenario: `V0 = 157`, `I = 0x300`, zero memory. -/
def machBcd : Machine :=
  { machDrw with v := (fun j => if j = 0 then 157 else 0),
                 mem := (fun _ => 0) }

/-- Same but with the 157 in `VF` (for opcode `0xFF33`). -/
def machBcdF : Machine :=
  { machBcd with v := (fun j => if j = 15 then 157 else 0) }

/-- State for the call/return round-trip witness: `pc = 0x202`, `sp = 3`. -/
def machCall7 : Machine :=
  { machDrw with pc := 0x202, sp := 3, stack := (fun j => 100 + j) }


/-! ### Fold lemmas for `Display::draw` -/


/-- Accumulator shift for the cell fold. -/
theorem stepCell_foldl_shift (c : Nat) (L : List (Nat × Nat)) :
    ∀ (b : Buffer) (cl : Bool),
      L.foldl (stepCell c) (b, cl) =
        ((L.foldl (stepCell c) (b, false)).1,
          cl || (L.foldl (stepCell c) (b, false)).2) := by
  induction L with
  | nil => intro b cl; simp
  | cons p t ih =>
      intro b cl
      simp only [List.foldl_cons, stepCell, Bool.false_or]
      rw [ih ((xor_byte b p.1 p.2 c).1) (cl || (xor_byte b p.1 p.2 c).2),
        ih ((xor_byte b p.1 p.2 c).1) ((xor_byte b p.1 p.2 c).2)]
      simp [Bool.or_assoc]

/-- The buffer component of the cell fold is `applyXors`. -/
theorem stepCell_foldl_fst (c : Nat) (L : List (Nat × Nat)) :
    ∀ (b : Buffer) (cl : Bool),
      (L.foldl (stepCell c) (b, cl)).1 = applyXors c L b := by
  induction L with
  | nil => intro b cl; rfl
  | cons p t ih =>
      intro b cl
      simp only [List.foldl_cons, stepCell, applyXors]
      exact ih _ _

/-- `Display::draw` is the cell fold over all device cells it touches. -/
theorem draw_eq_ops_aux (c : Nat) (cs : List (Nat × Nat)) :
    ∀ (b : Buffer) (cl : Bool),
      cs.foldl (drawStep c) (b, cl) =
        (cs.flatMap (fun p => pixelOps p.1 p.2)).foldl (stepCell c) (b, cl) := by
  induction cs with
  | nil => intro b cl; rfl
  | cons p t ih =>
      intro b cl
      simp only [List.foldl_cons, List.flatMap_cons, List.foldl_append]
      rw [← ih]
      congr 1
      show drawStep c (b, cl) p = (pixelOps p.1 p.2).foldl (stepCell c) (b, cl)
      rw [stepCell_foldl_shift c (pixelOps p.1 p.2) b cl]
      rfl

theorem draw_eq_ops (w : Buffer) (x y : Nat) (sprite : List Nat) (c : Nat) :
    draw w x y sprite c = (drawOps x y sprite).foldl (stepCell c) (w, false) :=
  draw_eq_ops_aux c (spriteCells x y sprite) w false

/-- Once the collision accumulator is true it stays true. -/
theorem stepCell_foldl_true (c : Nat) (L : List (Nat × Nat)) :
    ∀ b : Buffer, (L.foldl (stepCell c) (b, true)).2 = true := by
  induction L with
  | nil => intro b; rfl
  | cons p t ih =>
      intro b
      simp only [List.foldl_cons, stepCell, Bool.true_or]
      exact ih _

/-- If some listed cell is nonzero before the fold, the collision flag of
the fold is true: the first visit to that cell reads its prior value. -/
theorem stepCell_foldl_collision (c : Nat) (L : List (Nat × Nat)) :
    ∀ (b : Buffer) (cl : Bool) (p : Nat × Nat),
      p ∈ L → b p.1 p.2 ≠ 0 → (L.foldl (stepCell c) (b, cl)).2 = true := by
  induction L with
  | nil => intro b cl p hmem; exact absurd hmem (List.not_mem_nil p)
  | cons q t ih =>
      intro b cl p hmem hnz
      simp only [List.foldl_cons, stepCell]
      by_cases hq : b q.1 q.2 = 0
      · have hne : p ≠ q := by
          intro he; rw [he] at hnz; exact hnz hq
        have hmem' : p ∈ t := by
          rcases List.mem_cons.mp hmem with h | h
          · exact absurd h hne
          · exact h
        have hb : (xor_byte b q.1 q.2 c).1 p.1 p.2 = b p.1 p.2 := by
          have hne2 : ¬(p.1 = q.1 ∧ p.2 = q.2) := by
            intro hand
            exact hne (by cases p; cases q; simp_all)
          simp [xor_byte, write_byte, read_byte, hne2]
        apply ih _ _ p hmem'
        rw [hb]; exact hnz
      · have : (xor_byte b q.1 q.2 c).2 = true := by
          simp [xor_byte, read_byte, hq]
        rw [this, Bool.or_true]
        exact stepCell_foldl_true c t _

theorem natXor_assoc (a b c : Nat) :
    Nat.xor (Nat.xor a b) c = Nat.xor a (Nat.xor b c) := Nat.xor_assoc a b c

theorem natXor_self (a : Nat) : Nat.xor a a = 0 := Nat.xor_self a

theorem natXor_zero (a : Nat) : Nat.xor a 0 = a := Nat.xor_zero a

/-- Pointwise value of `applyXors`: each cell is XORed once per occurrence
in the list, so its final value depends only on the parity of the count. -/
theorem applyXors_apply (c : Nat) (L : List (Nat × Nat)) :
    ∀ (b : Buffer) (X Y : Nat),
      applyXors c L b X Y =
        Nat.xor (b X Y) (if (L.count (X, Y)) % 2 = 1 then c else 0) := by
  induction L with
  | nil =>
      intro b X Y
      simp only [applyXors, List.foldl_nil, List.count_nil]
      rw [if_neg (by omega), natXor_zero]
  | cons p t ih =>
      intro b X Y
      simp only [applyXors, List.foldl_cons] at *
      rw [ih]
      by_cases hp : X = p.1 ∧ Y = p.2
      · have hcell : ((X, Y) : Nat × Nat) = p := Prod.ext hp.1 hp.2
        have hb : (xor_byte b p.1 p.2 c).1 X Y = Nat.xor (b X Y) c := by
          simp [xor_byte, write_byte, read_byte, hp.1, hp.2]
        have hcnt : (p :: t).count (X, Y) = t.count (X, Y) + 1 := by
          simp [List.count_cons, hcell]
        rw [hb, hcnt, natXor_assoc]
        by_cases hpar : t.count (X, Y) % 2 = 1
        · rw [if_pos hpar, if_neg (by omega), natXor_self]
        · rw [if_neg hpar, if_pos (by omega), natXor_zero]
      · have hcell : ((X, Y) : Nat × Nat) ≠ p := fun he =>
          hp ⟨congrArg Prod.fst he, congrArg Prod.snd he⟩
        have hb : (xor_byte b p.1 p.2 c).1 X Y = b X Y := by
          simp [xor_byte, write_byte, read_byte, hp]
        have hcnt : (p :: t).count (X, Y) = t.count (X, Y) := by
          simp [List.count_cons, hcell]
        rw [hb, hcnt]

/-- XOR-ing the same cells with the same byte twice is the identity. -/
theorem applyXors_applyXors (c : Nat) (L : List (Nat × Nat)) (b : Buffer) :
    applyXors c L (applyXors c L b) = b := by
  funext X Y
  rw [applyXors_apply, applyXors_apply, natXor_assoc, natXor_self, natXor_zero]


/-! ### Dispatch: where each opcode range lands in the ordered match -/


/-- Dispatch of opcodes in [0x0000, 0x00DF]. -/
theorem armOf_r00 (op : Nat) (h1 : 0x0000 ≤ op) (h2 : op ≤ 0x00DF) :
    armOf op = Arm.unknown := by
  delta armOf
  rw [if_neg (by omega : ¬(op = 0x00E0)),
      if_neg (by omega : ¬(op = 0x00EE)),
      if_neg (by omega : ¬(0x1000 ≤ op ∧ op ≤ 0x1FFF)),
      if_neg (by omega : ¬(0x2000 ≤ op ∧ op ≤ 0x2FFF)),
      if_neg (by omega : ¬(0x3000 ≤ op ∧ op ≤ 0x3FFF)),
      if_neg (by omega : ¬(0x4000 ≤ op ∧ op ≤ 0x4FFF)),
      if_neg (by omega : ¬(0x5000 ≤ op ∧ op ≤ 0x5FFF)),
      if_neg (by omega : ¬(0x6000 ≤ op ∧ op ≤ 0x6FFF)),
      if_neg (by omega : ¬(0x7000 ≤ op ∧ op ≤ 0x7FFF)),
      if_neg (by omega : ¬(0x8000 ≤ op ∧ op ≤ 0x8FF0)),
      if_neg (by omega : ¬(0x8001 ≤ op ∧ op ≤ 0x8FF1)),
      if_neg (by omega : ¬(0x8002 ≤ op ∧ op ≤ 0x8FF2)),
      if_neg (by omega : ¬(0x8003 ≤ op ∧ op ≤ 0x8FF3)),
      if_neg (by omega : ¬(0x8004 ≤ op ∧ op ≤ 0x8FF4)),
      if_neg (by omega : ¬(0x8005 ≤ op ∧ op ≤ 0x8FF5)),
      if_neg (by omega : ¬(0x8006 ≤ op ∧ op ≤ 0x8FF6)),
      if_neg (by omega : ¬(0x8007 ≤ op ∧ op ≤ 0x8FF7)),
      if_neg (by omega : ¬(0x800E ≤ op ∧ op ≤ 0x8FFE)),
      if_neg (by omega : ¬(0x9000 ≤ op ∧ op ≤ 0x9FF0)),
      if_neg (by omega : ¬(0xA000 ≤ op ∧ op ≤ 0xAFFF)),
      if_neg (by omega : ¬(0xB000 ≤ op ∧ op ≤ 0xBFFF)),
      if_neg (by omega : ¬(0xC000 ≤ op ∧ op ≤ 0xCFFF)),
      if_neg (by omega : ¬(0xD000 ≤ op ∧ op ≤ 0xDFFF)),
      if_neg (by omega : ¬(0xE09E ≤ op ∧ op ≤ 0xEF9E)),
      if_neg (by omega : ¬(0xE0A1 ≤ op ∧ op ≤ 0xEFA1)),
      if_neg (by omega : ¬(0xF007 ≤ op ∧ op ≤ 0xFF07)),
      if_neg (by omega : ¬(0xF00A ≤ op ∧ op ≤ 0xFF0A)),
      if_neg (by omega : ¬(0xF015 ≤ op ∧ op ≤ 0xFF15)),
      if_neg (by omega : ¬(0xF018 ≤ op ∧ op ≤ 0xFF18)),
      if_neg (by omega : ¬(0xF01E ≤ op ∧ op ≤ 0xFF1E)),
      if_neg (by omega : ¬(0xF029 ≤ op ∧ op ≤ 0xFF29)),
      if_neg (by omega : ¬(0xF033 ≤ op ∧ op ≤ 0xFF33)),
      if_neg (by omega : ¬(0xF055 ≤ op ∧ op ≤ 0xFF55)),
      if_neg (by omega : ¬(0xF065 ≤ op ∧ op ≤ 0xFF65))]

/-- Dispatch of opcodes in [0x00E0, 0x00E0]. -/
theorem armOf_r01 (op : Nat) (h1 : 0x00E0 ≤ op) (h2 : op ≤ 0x00E0) :
    armOf op = Arm.cls := by
  delta armOf
  rw [if_pos (by omega : op = 0x00E0)]

/-- Dispatch of opcodes in [0x00E1, 0x00ED]. -/
theorem armOf_r02 (op : Nat) (h1 : 0x00E1 ≤ op) (h2 : op ≤ 0x00ED) :
    armOf op = Arm.unknown := by
  delta armOf
  rw [if_neg (by omega : ¬(op = 0x00E0)),
      if_neg (by omega : ¬(op = 0x00EE)),
      if_neg (by omega : ¬(0x1000 ≤ op ∧ op ≤ 0x1FFF)),
      if_neg (by omega : ¬(0x2000 ≤ op ∧ op ≤ 0x2FFF)),
      if_neg (by omega : ¬(0x3000 ≤ op ∧ op ≤ 0x3FFF)),
      if_neg (by omega : ¬(0x4000 ≤ op ∧ op ≤ 0x4FFF)),
      if_neg (by omega : ¬(0x5000 ≤ op ∧ op ≤ 0x5FFF)),
      if_neg (by omega : ¬(0x6000 ≤ op ∧ op ≤ 0x6FFF)),
      if_neg (by omega : ¬(0x7000 ≤ op ∧ op ≤ 0x7FFF)),
      if_neg (by omega : ¬(0x8000 ≤ op ∧ op ≤ 0x8FF0)),
      if_neg (by omega : ¬(0x8001 ≤ op ∧ op ≤ 0x8FF1)),
      if_neg (by omega : ¬(0x8002 ≤ op ∧ op ≤ 0x8FF2)),
      if_neg (by omega : ¬(0x8003 ≤ op ∧ op ≤ 0x8FF3)),
      if_neg (by omega : ¬(0x8004 ≤ op ∧ op ≤ 0x8FF4)),
      if_neg (by omega : ¬(0x8005 ≤ op ∧ op ≤ 0x8FF5)),
      if_neg (by omega : ¬(0x8006 ≤ op ∧ op ≤ 0x8FF6)),
      if_neg (by omega : ¬(0x8007 ≤ op ∧ op ≤ 0x8FF7)),
      if_neg (by omega : ¬(0x800E ≤ op ∧ op ≤ 0x8FFE)),
      if_neg (by omega : ¬(0x9000 ≤ op ∧ op ≤ 0x9FF0)),
      if_neg (by omega : ¬(0xA000 ≤ op ∧ op ≤ 0xAFFF)),
      if_neg (by omega : ¬(0xB000 ≤ op ∧ op ≤ 0xBFFF)),
      if_neg (by omega : ¬(0xC000 ≤ op ∧ op ≤ 0xCFFF)),
      if_neg (by omega : ¬(0xD000 ≤ op ∧ op ≤ 0xDFFF)),
      if_neg (by omega : ¬(0xE09E ≤ op ∧ op ≤ 0xEF9E)),
      if_neg (by omega : ¬(0xE0A1 ≤ op ∧ op ≤ 0xEFA1)),
      if_neg (by omega : ¬(0xF007 ≤ op ∧ op ≤ 0xFF07)),
      if_neg (by omega : ¬(0xF00A ≤ op ∧ op ≤ 0xFF0A)),
      if_neg (by omega : ¬(0xF015 ≤ op ∧ op ≤ 0xFF15)),
      if_neg (by omega : ¬(0xF018 ≤ op ∧ op ≤ 0xFF18)),
      if_neg (by omega : ¬(0xF01E ≤ op ∧ op ≤ 0xFF1E)),
      if_neg (by omega : ¬(0xF029 ≤ op ∧ op ≤ 0xFF29)),
      if_neg (by omega : ¬(0xF033 ≤ op ∧ op ≤ 0xFF33)),
      if_neg (by omega : ¬(0xF055 ≤ op ∧ op ≤ 0xFF55)),
      if_neg (by omega : ¬(0xF065 ≤ op ∧ op ≤ 0xFF65))]

/-- Dispatch of opcodes in [0x00EE, 0x00EE]. -/
theorem armOf_r03 (op : Nat) (h1 : 0x00EE ≤ op) (h2 : op ≤ 0x00EE) :
    armOf op = Arm.ret := by
  delta armOf
  rw [if_neg (by omega : ¬(op = 0x00E0)),
      if_pos (by omega : op = 0x00EE)]

/-- Dispatch of opcodes in [0x00EF, 0x0FFF]. -/
theorem armOf_r04 (op : Nat) (h1 : 0x00EF ≤ op) (h2 : op ≤ 0x0FFF) :
    armOf op = Arm.unknown := by
  delta armOf
  rw [if_neg (by omega : ¬(op = 0x00E0)),
      if_neg (by omega : ¬(op = 0x00EE)),
      if_neg (by omega : ¬(0x1000 ≤ op ∧ op ≤ 0x1FFF)),
      if_neg (by omega : ¬(0x2000 ≤ op ∧ op ≤ 0x2FFF)),
      if_neg (by omega : ¬(0x3000 ≤ op ∧ op ≤ 0x3FFF)),
      if_neg (by omega : ¬(0x4000 ≤ op ∧ op ≤ 0x4FFF)),
      if_neg (by omega : ¬(0x5000 ≤ op ∧ op ≤ 0x5FFF)),
      if_neg (by omega : ¬(0x6000 ≤ op ∧ op ≤ 0x6FFF)),
      if_neg (by omega : ¬(0x7000 ≤ op ∧ op ≤ 0x7FFF)),
      if_neg (by omega : ¬(0x8000 ≤ op ∧ op ≤ 0x8FF0)),
      if_neg (by omega : ¬(0x8001 ≤ op ∧ op ≤ 0x8FF1)),
      if_neg (by omega : ¬(0x8002 ≤ op ∧ op ≤ 0x8FF2)),
      if_neg (by omega : ¬(0x8003 ≤ op ∧ op ≤ 0x8FF3)),
      if_neg (by omega : ¬(0x8004 ≤ op ∧ op ≤ 0x8FF4)),
      if_neg (by omega : ¬(0x8005 ≤ op ∧ op ≤ 0x8FF5)),
      if_neg (by omega : ¬(0x8006 ≤ op ∧ op ≤ 0x8FF6)),
      if_neg (by omega : ¬(0x8007 ≤ op ∧ op ≤ 0x8FF7)),
      if_neg (by omega : ¬(0x800E ≤ op ∧ op ≤ 0x8FFE)),
      if_neg (by omega : ¬(0x9000 ≤ op ∧ op ≤ 0x9FF0)),
      if_neg (by omega : ¬(0xA000 ≤ op ∧ op ≤ 0xAFFF)),
      if_neg (by omega : ¬(0xB000 ≤ op ∧ op ≤ 0xBFFF)),
      if_neg (by omega : ¬(0xC000 ≤ op ∧ op ≤ 0xCFFF)),
      if_neg (by omega : ¬(0xD000 ≤ op ∧ op ≤ 0xDFFF)),
      if_neg (by omega : ¬(0xE09E ≤ op ∧ op ≤ 0xEF9E)),
      if_neg (by omega : ¬(0xE0A1 ≤ op ∧ op ≤ 0xEFA1)),
      if_neg (by omega : ¬(0xF007 ≤ op ∧ op ≤ 0xFF07)),
      if_neg (by omega : ¬(0xF00A ≤ op ∧ op ≤ 0xFF0A)),
      if_neg (by omega : ¬(0xF015 ≤ op ∧ op ≤ 0xFF15)),
      if_neg (by omega : ¬(0xF018 ≤ op ∧ op ≤ 0xFF18)),
      if_neg (by omega : ¬(0xF01E ≤ op ∧ op ≤ 0xFF1E)),
      if_neg (by omega : ¬(0xF029 ≤ op ∧ op ≤ 0xFF29)),
      if_neg (by omega : ¬(0xF033 ≤ op ∧ op ≤ 0xFF33)),
      if_neg (by omega : ¬(0xF055 ≤ op ∧ op ≤ 0xFF55)),
      if_neg (by omega : ¬(0xF065 ≤ op ∧ op ≤ 0xFF65))]

/-- Dispatch of opcodes in [0x1000, 0x1FFF]. -/
theorem armOf_r05 (op : Nat) (h1 : 0x1000 ≤ op) (h2 : op ≤ 0x1FFF) :
    armOf op = Arm.jp := by
  delta armOf
  rw [if_neg (by omega : ¬(op = 0x00E0)),
      if_neg (by omega : ¬(op = 0x00EE)),
      if_pos (by omega : 0x1000 ≤ op ∧ op ≤ 0x1FFF)]

/-- Dispatch of opcodes in [0x2000, 0x2FFF]. -/
theorem armOf_r06 (op : Nat) (h1 : 0x2000 ≤ op) (h2 : op ≤ 0x2FFF) :
    armOf op = Arm.call := by
  delta armOf
  rw [if_neg (by omega : ¬(op = 0x00E0)),
      if_neg (by omega : ¬(op = 0x00EE)),
      if_neg (by omega : ¬(0x1000 ≤ op ∧ op ≤ 0x1FFF)),
      if_pos (by omega : 0x2000 ≤ op ∧ op ≤ 0x2FFF)]

/-- Dispatch of opcodes in [0x3000, 0x3FFF]. -/
theorem armOf_r07 (op : Nat) (h1 : 0x3000 ≤ op) (h2 : op ≤ 0x3FFF) :
    armOf op = Arm.se_byte := by
  delta armOf
  rw [if_neg (by omega : ¬(op = 0x00E0)),
      if_neg (by omega : ¬(op = 0x00EE)),
      if_neg (by omega : ¬(0x1000 ≤ op ∧ op ≤ 0x1FFF)),
      if_neg (by omega : ¬(0x2000 ≤ op ∧ op ≤ 0x2FFF)),
      if_pos (by omega : 0x3000 ≤ op ∧ op ≤ 0x3FFF)]

/-- Dispatch of opcodes in [0x4000, 0x4FFF]. -/
theorem armOf_r08 (op : Nat) (h1 : 0x4000 ≤ op) (h2 : op ≤ 0x4FFF) :
    armOf op = Arm.sne_byte := by
  delta armOf
  rw [if_neg (by omega : ¬(op = 0x00E0)),
      if_neg (by omega : ¬(op = 0x00EE)),
      if_neg (by omega : ¬(0x1000 ≤ op ∧ op ≤ 0x1FFF)),
      if_neg (by omega : ¬(0x2000 ≤ op ∧ op ≤ 0x2FFF)),
      if_neg (by omega : ¬(0x3000 ≤ op ∧ op ≤ 0x3FFF)),
      if_pos (by omega : 0x4000 ≤ op ∧ op ≤ 0x4FFF)]

/-- Dispatch of opcodes in [0x5000, 0x5FFF]. -/
theorem armOf_r09 (op : Nat) (h1 : 0x5000 ≤ op) (h2 : op ≤ 0x5FFF) :
    armOf op = Arm.se_reg := by
  delta armOf
  rw [if_neg (by omega : ¬(op = 0x00E0)),
      if_neg (by omega : ¬(op = 0x00EE)),
      if_neg (by omega : ¬(0x1000 ≤ op ∧ op ≤ 0x1FFF)),
      if_neg (by omega : ¬(0x2000 ≤ op ∧ op ≤ 0x2FFF)),
      if_neg (by omega : ¬(0x3000 ≤ op ∧ op ≤ 0x3FFF)),
      if_neg (by omega : ¬(0x4000 ≤ op ∧ op ≤ 0x4FFF)),
      if_pos (by omega : 0x5000 ≤ op ∧ op ≤ 0x5FFF)]

/-- Dispatch of opcodes in [0x6000, 0x6FFF]. -/
theorem armOf_r10 (op : Nat) (h1 : 0x6000 ≤ op) (h2 : op ≤ 0x6FFF) :
    armOf op = Arm.ld_byte := by
  delta armOf
  rw [if_neg (by omega : ¬(op = 0x00E0)),
      if_neg (by omega : ¬(op = 0x00EE)),
      if_neg (by omega : ¬(0x1000 ≤ op ∧ op ≤ 0x1FFF)),
      if_neg (by omega : ¬(0x2000 ≤ op ∧ op ≤ 0x2FFF)),
      if_neg (by omega : ¬(0x3000 ≤ op ∧ op ≤ 0x3FFF)),
      if_neg (by omega : ¬(0x4000 ≤ op ∧ op ≤ 0x4FFF)),
      if_neg (by omega : ¬(0x5000 ≤ op ∧ op ≤ 0x5FFF)),
      if_pos (by omega : 0x6000 ≤ op ∧ op ≤ 0x6FFF)]

/-- Dispatch of opcodes in [0x7000, 0x7FFF]. -/
theorem armOf_r11 (op : Nat) (h1 : 0x7000 ≤ op) (h2 : op ≤ 0x7FFF) :
    armOf op = Arm.add_byte := by
  delta armOf
  rw [if_neg (by omega : ¬(op = 0x00E0)),
      if_neg (by omega : ¬(op = 0x00EE)),
      if_neg (by omega : ¬(0x1000 ≤ op ∧ op ≤ 0x1FFF)),
      if_neg (by omega : ¬(0x2000 ≤ op ∧ op ≤ 0x2FFF)),
      if_neg (by omega : ¬(0x3000 ≤ op ∧ op ≤ 0x3FFF)),
      if_neg (by omega : ¬(0x4000 ≤ op ∧ op ≤ 0x4FFF)),
      if_neg (by omega : ¬(0x5000 ≤ op ∧ op ≤ 0x5FFF)),
      if_neg (by omega : ¬(0x6000 ≤ op ∧ op ≤ 0x6FFF)),
      if_pos (by omega : 0x7000 ≤ op ∧ op ≤ 0x7FFF)]

/-- Dispatch of opcodes in [0x8000, 0x8FF0]. -/
theorem armOf_r12 (op : Nat) (h1 : 0x8000 ≤ op) (h2 : op ≤ 0x8FF0) :
    armOf op = Arm.ld_reg := by
  delta armOf
  rw [if_neg (by omega : ¬(op = 0x00E0)),
      if_neg (by omega : ¬(op = 0x00EE)),
      if_neg (by omega : ¬(0x1000 ≤ op ∧ op ≤ 0x1FFF)),
      if_neg (by omega : ¬(0x2000 ≤ op ∧ op ≤ 0x2FFF)),
      if_neg (by omega : ¬(0x3000 ≤ op ∧ op ≤ 0x3FFF)),
      if_neg (by omega : ¬(0x4000 ≤ op ∧ op ≤ 0x4FFF)),
      if_neg (by omega : ¬(0x5000 ≤ op ∧ op ≤ 0x5FFF)),
      if_neg (by omega : ¬(0x6000 ≤ op ∧ op ≤ 0x6FFF)),
      if_neg (by omega : ¬(0x7000 ≤ op ∧ op ≤ 0x7FFF)),
      if_pos (by omega : 0x8000 ≤ op ∧ op ≤ 0x8FF0)]

/-- Dispatch of opcodes in [0x8FF1, 0x8FF1]. -/
theorem armOf_r13 (op : Nat) (h1 : 0x8FF1 ≤ op) (h2 : op ≤ 0x8FF1) :
    armOf op = Arm.or_reg := by
  delta armOf
  rw [if_neg (by omega : ¬(op = 0x00E0)),
      if_neg (by omega : ¬(op = 0x00EE)),
      if_neg (by omega : ¬(0x1000 ≤ op ∧ op ≤ 0x1FFF)),
      if_neg (by omega : ¬(0x2000 ≤ op ∧ op ≤ 0x2FFF)),
      if_neg (by omega : ¬(0x3000 ≤ op ∧ op ≤ 0x3FFF)),
      if_neg (by omega : ¬(0x4000 ≤ op ∧ op ≤ 0x4FFF)),
      if_neg (by omega : ¬(0x5000 ≤ op ∧ op ≤ 0x5FFF)),
      if_neg (by omega : ¬(0x6000 ≤ op ∧ op ≤ 0x6FFF)),
      if_neg (by omega : ¬(0x7000 ≤ op ∧ op ≤ 0x7FFF)),
      if_neg (by omega : ¬(0x8000 ≤ op ∧ op ≤ 0x8FF0)),
      if_pos (by omega : 0x8001 ≤ op ∧ op ≤ 0x8FF1)]

/-- Dispatch of opcodes in [0x8FF2, 0x8FF2]. -/
theorem armOf_r14 (op : Nat) (h1 : 0x8FF2 ≤ op) (h2 : op ≤ 0x8FF2) :
    armOf op = Arm.and_reg := by
  delta armOf
  rw [if_neg (by omega : ¬(op = 0x00E0)),
      if_neg (by omega : ¬(op = 0x00EE)),
      if_neg (by omega : ¬(0x1000 ≤ op ∧ op ≤ 0x1FFF)),
      if_neg (by omega : ¬(0x2000 ≤ op ∧ op ≤ 0x2FFF)),
      if_neg (by omega : ¬(0x3000 ≤ op ∧ op ≤ 0x3FFF)),
      if_neg (by omega : ¬(0x4000 ≤ op ∧ op ≤ 0x4FFF)),
      if_neg (by omega : ¬(0x5000 ≤ op ∧ op ≤ 0x5FFF)),
      if_neg (by omega : ¬(0x6000 ≤ op ∧ op ≤ 0x6FFF)),
      if_neg (by omega : ¬(0x7000 ≤ op ∧ op ≤ 0x7FFF)),
      if_neg (by omega : ¬(0x8000 ≤ op ∧ op ≤ 0x8FF0)),
      if_neg (by omega : ¬(0x8001 ≤ op ∧ op ≤ 0x8FF1)),
      if_pos (by omega : 0x8002 ≤ op ∧ op ≤ 0x8FF2)]

/-- Dispatch of opcodes in [0x8FF3, 0x8FF3]. -/
theorem armOf_r15 (op : Nat) (h1 : 0x8FF3 ≤ op) (h2 : op ≤ 0x8FF3) :
    armOf op = Arm.xor_reg := by
  delta armOf
  rw [if_neg (by omega : ¬(op = 0x00E0)),
      if_neg (by omega : ¬(op = 0x00EE)),
      if_neg (by omega : ¬(0x1000 ≤ op ∧ op ≤ 0x1FFF)),
      if_neg (by omega : ¬(0x2000 ≤ op ∧ op ≤ 0x2FFF)),
      if_neg (by omega : ¬(0x3000 ≤ op ∧ op ≤ 0x3FFF)),
      if_neg (by omega : ¬(0x4000 ≤ op ∧ op ≤ 0x4FFF)),
      if_neg (by omega : ¬(0x5000 ≤ op ∧ op ≤ 0x5FFF)),
      if_neg (by omega : ¬(0x6000 ≤ op ∧ op ≤ 0x6FFF)),
      if_neg (by omega : ¬(0x7000 ≤ op ∧ op ≤ 0x7FFF)),
      if_neg (by omega : ¬(0x8000 ≤ op ∧ op ≤ 0x8FF0)),
      if_neg (by omega : ¬(0x8001 ≤ op ∧ op ≤ 0x8FF1)),
      if_neg (by omega : ¬(0x8002 ≤ op ∧ op ≤ 0x8FF2)),
      if_pos (by omega : 0x8003 ≤ op ∧ op ≤ 0x8FF3)]

/-- Dispatch of opcodes in [0x8FF4, 0x8FF4]. -/
theorem armOf_r16 (op : Nat) (h1 : 0x8FF4 ≤ op) (h2 : op ≤ 0x8FF4) :
    armOf op = Arm.add_reg := by
  delta armOf
  rw [if_neg (by omega : ¬(op = 0x00E0)),
      if_neg (by omega : ¬(op = 0x00EE)),
      if_neg (by omega : ¬(0x1000 ≤ op ∧ op ≤ 0x1FFF)),
      if_neg (by omega : ¬(0x2000 ≤ op ∧ op ≤ 0x2FFF)),
      if_neg (by omega : ¬(0x3000 ≤ op ∧ op ≤ 0x3FFF)),
      if_neg (by omega : ¬(0x4000 ≤ op ∧ op ≤ 0x4FFF)),
      if_neg (by omega : ¬(0x5000 ≤ op ∧ op ≤ 0x5FFF)),
      if_neg (by omega : ¬(0x6000 ≤ op ∧ op ≤ 0x6FFF)),
      if_neg (by omega : ¬(0x7000 ≤ op ∧ op ≤ 0x7FFF)),
      if_neg (by omega : ¬(0x8000 ≤ op ∧ op ≤ 0x8FF0)),
      if_neg (by omega : ¬(0x8001 ≤ op ∧ op ≤ 0x8FF1)),
      if_neg (by omega : ¬(0x8002 ≤ op ∧ op ≤ 0x8FF2)),
      if_neg (by omega : ¬(0x8003 ≤ op ∧ op ≤ 0x8FF3)),
      if_pos (by omega : 0x8004 ≤ op ∧ op ≤ 0x8FF4)]

/-- Dispatch of opcodes in [0x8FF5, 0x8FF5]. -/
theorem armOf_r17 (op : Nat) (h1 : 0x8FF5 ≤ op) (h2 : op ≤ 0x8FF5) :
    armOf op = Arm.sub_reg := by
  delta armOf
  rw [if_neg (by omega : ¬(op = 0x00E0)),
      if_neg (by omega : ¬(op = 0x00EE)),
      if_neg (by omega : ¬(0x1000 ≤ op ∧ op ≤ 0x1FFF)),
      if_neg (by omega : ¬(0x2000 ≤ op ∧ op ≤ 0x2FFF)),
      if_neg (by omega : ¬(0x3000 ≤ op ∧ op ≤ 0x3FFF)),
      if_neg (by omega : ¬(0x4000 ≤ op ∧ op ≤ 0x4FFF)),
      if_neg (by omega : ¬(0x5000 ≤ op ∧ op ≤ 0x5FFF)),
      if_neg (by omega : ¬(0x6000 ≤ op ∧ op ≤ 0x6FFF)),
      if_neg (by omega : ¬(0x7000 ≤ op ∧ op ≤ 0x7FFF)),
      if_neg (by omega : ¬(0x8000 ≤ op ∧ op ≤ 0x8FF0)),
      if_neg (by omega : ¬(0x8001 ≤ op ∧ op ≤ 0x8FF1)),
      if_neg (by omega : ¬(0x8002 ≤ op ∧ op ≤ 0x8FF2)),
      if_neg (by omega : ¬(0x8003 ≤ op ∧ op ≤ 0x8FF3)),
      if_neg (by omega : ¬(0x8004 ≤ op ∧ op ≤ 0x8FF4)),
      if_pos (by omega : 0x8005 ≤ op ∧ op ≤ 0x8FF5)]

/-- Dispatch of opcodes in [0x8FF6, 0x8FF6]. -/
theorem armOf_r18 (op : Nat) (h1 : 0x8FF6 ≤ op) (h2 : op ≤ 0x8FF6) :
    armOf op = Arm.shr := by
  delta armOf
  rw [if_neg (by omega : ¬(op = 0x00E0)),
      if_neg (by omega : ¬(op = 0x00EE)),
      if_neg (by omega : ¬(0x1000 ≤ op ∧ op ≤ 0x1FFF)),
      if_neg (by omega : ¬(0x2000 ≤ op ∧ op ≤ 0x2FFF)),
      if_neg (by omega : ¬(0x3000 ≤ op ∧ op ≤ 0x3FFF)),
      if_neg (by omega : ¬(0x4000 ≤ op ∧ op ≤ 0x4FFF)),
      if_neg (by omega : ¬(0x5000 ≤ op ∧ op ≤ 0x5FFF)),
      if_neg (by omega : ¬(0x6000 ≤ op ∧ op ≤ 0x6FFF)),
      if_neg (by omega : ¬(0x7000 ≤ op ∧ op ≤ 0x7FFF)),
      if_neg (by omega : ¬(0x8000 ≤ op ∧ op ≤ 0x8FF0)),
      if_neg (by omega : ¬(0x8001 ≤ op ∧ op ≤ 0x8FF1)),
      if_neg (by omega : ¬(0x8002 ≤ op ∧ op ≤ 0x8FF2)),
      if_neg (by omega : ¬(0x8003 ≤ op ∧ op ≤ 0x8FF3)),
      if_neg (by omega : ¬(0x8004 ≤ op ∧ op ≤ 0x8FF4)),
      if_neg (by omega : ¬(0x8005 ≤ op ∧ op ≤ 0x8FF5)),
      if_pos (by omega : 0x8006 ≤ op ∧ op ≤ 0x8FF6)]

/-- Dispatch of opcodes in [0x8FF7, 0x8FF7]. -/
theorem armOf_r19 (op : Nat) (h1 : 0x8FF7 ≤ op) (h2 : op ≤ 0x8FF7) :
    armOf op = Arm.subn := by
  delta armOf
  rw [if_neg (by omega : ¬(op = 0x00E0)),
      if_neg (by omega : ¬(op = 0x00EE)),
      if_neg (by omega : ¬(0x1000 ≤ op ∧ op ≤ 0x1FFF)),
      if_neg (by omega : ¬(0x2000 ≤ op ∧ op ≤ 0x2FFF)),
      if_neg (by omega : ¬(0x3000 ≤ op ∧ op ≤ 0x3FFF)),
      if_neg (by omega : ¬(0x4000 ≤ op ∧ op ≤ 0x4FFF)),
      if_neg (by omega : ¬(0x5000 ≤ op ∧ op ≤ 0x5FFF)),
      if_neg (by omega : ¬(0x6000 ≤ op ∧ op ≤ 0x6FFF)),
      if_neg (by omega : ¬(0x7000 ≤ op ∧ op ≤ 0x7FFF)),
      if_neg (by omega : ¬(0x8000 ≤ op ∧ op ≤ 0x8FF0)),
      if_neg (by omega : ¬(0x8001 ≤ op ∧ op ≤ 0x8FF1)),
      if_neg (by omega : ¬(0x8002 ≤ op ∧ op ≤ 0x8FF2)),
      if_neg (by omega : ¬(0x8003 ≤ op ∧ op ≤ 0x8FF3)),
      if_neg (by omega : ¬(0x8004 ≤ op ∧ op ≤ 0x8FF4)),
      if_neg (by omega : ¬(0x8005 ≤ op ∧ op ≤ 0x8FF5)),
      if_neg (by omega : ¬(0x8006 ≤ op ∧ op ≤ 0x8FF6)),
      if_pos (by omega : 0x8007 ≤ op ∧ op ≤ 0x8FF7)]

/-- Dispatch of opcodes in [0x8FF8, 0x8FFE]. -/
theorem armOf_r20 (op : Nat) (h1 : 0x8FF8 ≤ op) (h2 : op ≤ 0x8FFE) :
    armOf op = Arm.shl := by
  delta armOf
  rw [if_neg (by omega : ¬(op = 0x00E0)),
      if_neg (by omega : ¬(op = 0x00EE)),
      if_neg (by omega : ¬(0x1000 ≤ op ∧ op ≤ 0x1FFF)),
      if_neg (by omega : ¬(0x2000 ≤ op ∧ op ≤ 0x2FFF)),
      if_neg (by omega : ¬(0x3000 ≤ op ∧ op ≤ 0x3FFF)),
      if_neg (by omega : ¬(0x4000 ≤ op ∧ op ≤ 0x4FFF)),
      if_neg (by omega : ¬(0x5000 ≤ op ∧ op ≤ 0x5FFF)),
      if_neg (by omega : ¬(0x6000 ≤ op ∧ op ≤ 0x6FFF)),
      if_neg (by omega : ¬(0x7000 ≤ op ∧ op ≤ 0x7FFF)),
      if_neg (by omega : ¬(0x8000 ≤ op ∧ op ≤ 0x8FF0)),
      if_neg (by omega : ¬(0x8001 ≤ op ∧ op ≤ 0x8FF1)),
      if_neg (by omega : ¬(0x8002 ≤ op ∧ op ≤ 0x8FF2)),
      if_neg (by omega : ¬(0x8003 ≤ op ∧ op ≤ 0x8FF3)),
      if_neg (by omega : ¬(0x8004 ≤ op ∧ op ≤ 0x8FF4)),
      if_neg (by omega : ¬(0x8005 ≤ op ∧ op ≤ 0x8FF5)),
      if_neg (by omega : ¬(0x8006 ≤ op ∧ op ≤ 0x8FF6)),
      if_neg (by omega : ¬(0x8007 ≤ op ∧ op ≤ 0x8FF7)),
      if_pos (by omega : 0x800E ≤ op ∧ op ≤ 0x8FFE)]

/-- Dispatch of opcodes in [0x8FFF, 0x8FFF]. -/
theorem armOf_r21 (op : Nat) (h1 : 0x8FFF ≤ op) (h2 : op ≤ 0x8FFF) :
    armOf op = Arm.unknown := by
  delta armOf
  rw [if_neg (by omega : ¬(op = 0x00E0)),
      if_neg (by omega : ¬(op = 0x00EE)),
      if_neg (by omega : ¬(0x1000 ≤ op ∧ op ≤ 0x1FFF)),
      if_neg (by omega : ¬(0x2000 ≤ op ∧ op ≤ 0x2FFF)),
      if_neg (by omega : ¬(0x3000 ≤ op ∧ op ≤ 0x3FFF)),
      if_neg (by omega : ¬(0x4000 ≤ op ∧ op ≤ 0x4FFF)),
      if_neg (by omega : ¬(0x5000 ≤ op ∧ op ≤ 0x5FFF)),
      if_neg (by omega : ¬(0x6000 ≤ op ∧ op ≤ 0x6FFF)),
      if_neg (by omega : ¬(0x7000 ≤ op ∧ op ≤ 0x7FFF)),
      if_neg (by omega : ¬(0x8000 ≤ op ∧ op ≤ 0x8FF0)),
      if_neg (by omega : ¬(0x8001 ≤ op ∧ op ≤ 0x8FF1)),
      if_neg (by omega : ¬(0x8002 ≤ op ∧ op ≤ 0x8FF2)),
      if_neg (by omega : ¬(0x8003 ≤ op ∧ op ≤ 0x8FF3)),
      if_neg (by omega : ¬(0x8004 ≤ op ∧ op ≤ 0x8FF4)),
      if_neg (by omega : ¬(0x8005 ≤ op ∧ op ≤ 0x8FF5)),
      if_neg (by omega : ¬(0x8006 ≤ op ∧ op ≤ 0x8FF6)),
      if_neg (by omega : ¬(0x8007 ≤ op ∧ op ≤ 0x8FF7)),
      if_neg (by omega : ¬(0x800E ≤ op ∧ op ≤ 0x8FFE)),
      if_neg (by omega : ¬(0x9000 ≤ op ∧ op ≤ 0x9FF0)),
      if_neg (by omega : ¬(0xA000 ≤ op ∧ op ≤ 0xAFFF)),
      if_neg (by omega : ¬(0xB000 ≤ op ∧ op ≤ 0xBFFF)),
      if_neg (by omega : ¬(0xC000 ≤ op ∧ op ≤ 0xCFFF)),
      if_neg (by omega : ¬(0xD000 ≤ op ∧ op ≤ 0xDFFF)),
      if_neg (by omega : ¬(0xE09E ≤ op ∧ op ≤ 0xEF9E)),
      if_neg (by omega : ¬(0xE0A1 ≤ op ∧ op ≤ 0xEFA1)),
      if_neg (by omega : ¬(0xF007 ≤ op ∧ op ≤ 0xFF07)),
      if_neg (by omega : ¬(0xF00A ≤ op ∧ op ≤ 0xFF0A)),
      if_neg (by omega : ¬(0xF015 ≤ op ∧ op ≤ 0xFF15)),
      if_neg (by omega : ¬(0xF018 ≤ op ∧ op ≤ 0xFF18)),
      if_neg (by omega : ¬(0xF01E ≤ op ∧ op ≤ 0xFF1E)),
      if_neg (by omega : ¬(0xF029 ≤ op ∧ op ≤ 0xFF29)),
      if_neg (by omega : ¬(0xF033 ≤ op ∧ op ≤ 0xFF33)),
      if_neg (by omega : ¬(0xF055 ≤ op ∧ op ≤ 0xFF55)),
      if_neg (by omega : ¬(0xF065 ≤ op ∧ op ≤ 0xFF65))]

/-- Dispatch of opcodes in [0x9000, 0x9FF0]. -/
theorem armOf_r22 (op : Nat) (h1 : 0x9000 ≤ op) (h2 : op ≤ 0x9FF0) :
    armOf op = Arm.sne_reg := by
  delta armOf
  rw [if_neg (by omega : ¬(op = 0x00E0)),
      if_neg (by omega : ¬(op = 0x00EE)),
      if_neg (by omega : ¬(0x1000 ≤ op ∧ op ≤ 0x1FFF)),
      if_neg (by omega : ¬(0x2000 ≤ op ∧ op ≤ 0x2FFF)),
      if_neg (by omega : ¬(0x3000 ≤ op ∧ op ≤ 0x3FFF)),
      if_neg (by omega : ¬(0x4000 ≤ op ∧ op ≤ 0x4FFF)),
      if_neg (by omega : ¬(0x5000 ≤ op ∧ op ≤ 0x5FFF)),
      if_neg (by omega : ¬(0x6000 ≤ op ∧ op ≤ 0x6FFF)),
      if_neg (by omega : ¬(0x7000 ≤ op ∧ op ≤ 0x7FFF)),
      if_neg (by omega : ¬(0x8000 ≤ op ∧ op ≤ 0x8FF0)),
      if_neg (by omega : ¬(0x8001 ≤ op ∧ op ≤ 0x8FF1)),
      if_neg (by omega : ¬(0x8002 ≤ op ∧ op ≤ 0x8FF2)),
      if_neg (by omega : ¬(0x8003 ≤ op ∧ op ≤ 0x8FF3)),
      if_neg (by omega : ¬(0x8004 ≤ op ∧ op ≤ 0x8FF4)),
      if_neg (by omega : ¬(0x8005 ≤ op ∧ op ≤ 0x8FF5)),
      if_neg (by omega : ¬(0x8006 ≤ op ∧ op ≤ 0x8FF6)),
      if_neg (by omega : ¬(0x8007 ≤ op ∧ op ≤ 0x8FF7)),
      if_neg (by omega : ¬(0x800E ≤ op ∧ op ≤ 0x8FFE)),
      if_pos (by omega : 0x9000 ≤ op ∧ op ≤ 0x9FF0)]

/-- Dispatch of opcodes in [0x9FF1, 0x9FFF]. -/
theorem armOf_r23 (op : Nat) (h1 : 0x9FF1 ≤ op) (h2 : op ≤ 0x9FFF) :
    armOf op = Arm.unknown := by
  delta armOf
  rw [if_neg (by omega : ¬(op = 0x00E0)),
      if_neg (by omega : ¬(op = 0x00EE)),
      if_neg (by omega : ¬(0x1000 ≤ op ∧ op ≤ 0x1FFF)),
      if_neg (by omega : ¬(0x2000 ≤ op ∧ op ≤ 0x2FFF)),
      if_neg (by omega : ¬(0x3000 ≤ op ∧ op ≤ 0x3FFF)),
      if_neg (by omega : ¬(0x4000 ≤ op ∧ op ≤ 0x4FFF)),
      if_neg (by omega : ¬(0x5000 ≤ op ∧ op ≤ 0x5FFF)),
      if_neg (by omega : ¬(0x6000 ≤ op ∧ op ≤ 0x6FFF)),
      if_neg (by omega : ¬(0x7000 ≤ op ∧ op ≤ 0x7FFF)),
      if_neg (by omega : ¬(0x8000 ≤ op ∧ op ≤ 0x8FF0)),
      if_neg (by omega : ¬(0x8001 ≤ op ∧ op ≤ 0x8FF1)),
      if_neg (by omega : ¬(0x8002 ≤ op ∧ op ≤ 0x8FF2)),
      if_neg (by omega : ¬(0x8003 ≤ op ∧ op ≤ 0x8FF3)),
      if_neg (by omega : ¬(0x8004 ≤ op ∧ op ≤ 0x8FF4)),
      if_neg (by omega : ¬(0x8005 ≤ op ∧ op ≤ 0x8FF5)),
      if_neg (by omega : ¬(0x8006 ≤ op ∧ op ≤ 0x8FF6)),
      if_neg (by omega : ¬(0x8007 ≤ op ∧ op ≤ 0x8FF7)),
      if_neg (by omega : ¬(0x800E ≤ op ∧ op ≤ 0x8FFE)),
      if_neg (by omega : ¬(0x9000 ≤ op ∧ op ≤ 0x9FF0)),
      if_neg (by omega : ¬(0xA000 ≤ op ∧ op ≤ 0xAFFF)),
      if_neg (by omega : ¬(0xB000 ≤ op ∧ op ≤ 0xBFFF)),
      if_neg (by omega : ¬(0xC000 ≤ op ∧ op ≤ 0xCFFF)),
      if_neg (by omega : ¬(0xD000 ≤ op ∧ op ≤ 0xDFFF)),
      if_neg (by omega : ¬(0xE09E ≤ op ∧ op ≤ 0xEF9E)),
      if_neg (by omega : ¬(0xE0A1 ≤ op ∧ op ≤ 0xEFA1)),
      if_neg (by omega : ¬(0xF007 ≤ op ∧ op ≤ 0xFF07)),
      if_neg (by omega : ¬(0xF00A ≤ op ∧ op ≤ 0xFF0A)),
      if_neg (by omega : ¬(0xF015 ≤ op ∧ op ≤ 0xFF15)),
      if_neg (by omega : ¬(0xF018 ≤ op ∧ op ≤ 0xFF18)),
      if_neg (by omega : ¬(0xF01E ≤ op ∧ op ≤ 0xFF1E)),
      if_neg (by omega : ¬(0xF029 ≤ op ∧ op ≤ 0xFF29)),
      if_neg (by omega : ¬(0xF033 ≤ op ∧ op ≤ 0xFF33)),
      if_neg (by omega : ¬(0xF055 ≤ op ∧ op ≤ 0xFF55)),
      if_neg (by omega : ¬(0xF065 ≤ op ∧ op ≤ 0xFF65))]

/-- Dispatch of opcodes in [0xA000, 0xAFFF]. -/
theorem armOf_r24 (op : Nat) (h1 : 0xA000 ≤ op) (h2 : op ≤ 0xAFFF) :
    armOf op = Arm.ld_i := by
  delta armOf
  rw [if_neg (by omega : ¬(op = 0x00E0)),
      if_neg (by omega : ¬(op = 0x00EE)),
      if_neg (by omega : ¬(0x1000 ≤ op ∧ op ≤ 0x1FFF)),
      if_neg (by omega : ¬(0x2000 ≤ op ∧ op ≤ 0x2FFF)),
      if_neg (by omega : ¬(0x3000 ≤ op ∧ op ≤ 0x3FFF)),
      if_neg (by omega : ¬(0x4000 ≤ op ∧ op ≤ 0x4FFF)),
      if_neg (by omega : ¬(0x5000 ≤ op ∧ op ≤ 0x5FFF)),
      if_neg (by omega : ¬(0x6000 ≤ op ∧ op ≤ 0x6FFF)),
      if_neg (by omega : ¬(0x7000 ≤ op ∧ op ≤ 0x7FFF)),
      if_neg (by omega : ¬(0x8000 ≤ op ∧ op ≤ 0x8FF0)),
      if_neg (by omega : ¬(0x8001 ≤ op ∧ op ≤ 0x8FF1)),
      if_neg (by omega : ¬(0x8002 ≤ op ∧ op ≤ 0x8FF2)),
      if_neg (by omega : ¬(0x8003 ≤ op ∧ op ≤ 0x8FF3)),
      if_neg (by omega : ¬(0x8004 ≤ op ∧ op ≤ 0x8FF4)),
      if_neg (by omega : ¬(0x8005 ≤ op ∧ op ≤ 0x8FF5)),
      if_neg (by omega : ¬(0x8006 ≤ op ∧ op ≤ 0x8FF6)),
      if_neg (by omega : ¬(0x8007 ≤ op ∧ op ≤ 0x8FF7)),
      if_neg (by omega : ¬(0x800E ≤ op ∧ op ≤ 0x8FFE)),
      if_neg (by omega : ¬(0x9000 ≤ op ∧ op ≤ 0x9FF0)),
      if_pos (by omega : 0xA000 ≤ op ∧ op ≤ 0xAFFF)]

/-- Dispatch of opcodes in [0xB000, 0xBFFF]. -/
theorem armOf_r25 (op : Nat) (h1 : 0xB000 ≤ op) (h2 : op ≤ 0xBFFF) :
    armOf op = Arm.jp_v0 := by
  delta armOf
  rw [if_neg (by omega : ¬(op = 0x00E0)),
      if_neg (by omega : ¬(op = 0x00EE)),
      if_neg (by omega : ¬(0x1000 ≤ op ∧ op ≤ 0x1FFF)),
      if_neg (by omega : ¬(0x2000 ≤ op ∧ op ≤ 0x2FFF)),
      if_neg (by omega : ¬(0x3000 ≤ op ∧ op ≤ 0x3FFF)),
      if_neg (by omega : ¬(0x4000 ≤ op ∧ op ≤ 0x4FFF)),
      if_neg (by omega : ¬(0x5000 ≤ op ∧ op ≤ 0x5FFF)),
      if_neg (by omega : ¬(0x6000 ≤ op ∧ op ≤ 0x6FFF)),
      if_neg (by omega : ¬(0x7000 ≤ op ∧ op ≤ 0x7FFF)),
      if_neg (by omega : ¬(0x8000 ≤ op ∧ op ≤ 0x8FF0)),
      if_neg (by omega : ¬(0x8001 ≤ op ∧ op ≤ 0x8FF1)),
      if_neg (by omega : ¬(0x8002 ≤ op ∧ op ≤ 0x8FF2)),
      if_neg (by omega : ¬(0x8003 ≤ op ∧ op ≤ 0x8FF3)),
      if_neg (by omega : ¬(0x8004 ≤ op ∧ op ≤ 0x8FF4)),
      if_neg (by omega : ¬(0x8005 ≤ op ∧ op ≤ 0x8FF5)),
      if_neg (by omega : ¬(0x8006 ≤ op ∧ op ≤ 0x8FF6)),
      if_neg (by omega : ¬(0x8007 ≤ op ∧ op ≤ 0x8FF7)),
      if_neg (by omega : ¬(0x800E ≤ op ∧ op ≤ 0x8FFE)),
      if_neg (by omega : ¬(0x9000 ≤ op ∧ op ≤ 0x9FF0)),
      if_neg (by omega : ¬(0xA000 ≤ op ∧ op ≤ 0xAFFF)),
      if_pos (by omega : 0xB000 ≤ op ∧ op ≤ 0xBFFF)]

/-- Dispatch of opcodes in [0xC000, 0xCFFF]. -/
theorem armOf_r26 (op : Nat) (h1 : 0xC000 ≤ op) (h2 : op ≤ 0xCFFF) :
    armOf op = Arm.rnd := by
  delta armOf
  rw [if_neg (by omega : ¬(op = 0x00E0)),
      if_neg (by omega : ¬(op = 0x00EE)),
      if_neg (by omega : ¬(0x1000 ≤ op ∧ op ≤ 0x1FFF)),
      if_neg (by omega : ¬(0x2000 ≤ op ∧ op ≤ 0x2FFF)),
      if_neg (by omega : ¬(0x3000 ≤ op ∧ op ≤ 0x3FFF)),
      if_neg (by omega : ¬(0x4000 ≤ op ∧ op ≤ 0x4FFF)),
      if_neg (by omega : ¬(0x5000 ≤ op ∧ op ≤ 0x5FFF)),
      if_neg (by omega : ¬(0x6000 ≤ op ∧ op ≤ 0x6FFF)),
      if_neg (by omega : ¬(0x7000 ≤ op ∧ op ≤ 0x7FFF)),
      if_neg (by omega : ¬(0x8000 ≤ op ∧ op ≤ 0x8FF0)),
      if_neg (by omega : ¬(0x8001 ≤ op ∧ op ≤ 0x8FF1)),
      if_neg (by omega : ¬(0x8002 ≤ op ∧ op ≤ 0x8FF2)),
      if_neg (by omega : ¬(0x8003 ≤ op ∧ op ≤ 0x8FF3)),
      if_neg (by omega : ¬(0x8004 ≤ op ∧ op ≤ 0x8FF4)),
      if_neg (by omega : ¬(0x8005 ≤ op ∧ op ≤ 0x8FF5)),
      if_neg (by omega : ¬(0x8006 ≤ op ∧ op ≤ 0x8FF6)),
      if_neg (by omega : ¬(0x8007 ≤ op ∧ op ≤ 0x8FF7)),
      if_neg (by omega : ¬(0x800E ≤ op ∧ op ≤ 0x8FFE)),
      if_neg (by omega : ¬(0x9000 ≤ op ∧ op ≤ 0x9FF0)),
      if_neg (by omega : ¬(0xA000 ≤ op ∧ op ≤ 0xAFFF)),
      if_neg (by omega : ¬(0xB000 ≤ op ∧ op ≤ 0xBFFF)),
      if_pos (by omega : 0xC000 ≤ op ∧ op ≤ 0xCFFF)]

/-- Dispatch of opcodes in [0xD000, 0xDFFF]. -/
theorem armOf_r27 (op : Nat) (h1 : 0xD000 ≤ op) (h2 : op ≤ 0xDFFF) :
    armOf op = Arm.drw := by
  delta armOf
  rw [if_neg (by omega : ¬(op = 0x00E0)),
      if_neg (by omega : ¬(op = 0x00EE)),
      if_neg (by omega : ¬(0x1000 ≤ op ∧ op ≤ 0x1FFF)),
      if_neg (by omega : ¬(0x2000 ≤ op ∧ op ≤ 0x2FFF)),
      if_neg (by omega : ¬(0x3000 ≤ op ∧ op ≤ 0x3FFF)),
      if_neg (by omega : ¬(0x4000 ≤ op ∧ op ≤ 0x4FFF)),
      if_neg (by omega : ¬(0x5000 ≤ op ∧ op ≤ 0x5FFF)),
      if_neg (by omega : ¬(0x6000 ≤ op ∧ op ≤ 0x6FFF)),
      if_neg (by omega : ¬(0x7000 ≤ op ∧ op ≤ 0x7FFF)),
      if_neg (by omega : ¬(0x8000 ≤ op ∧ op ≤ 0x8FF0)),
      if_neg (by omega : ¬(0x8001 ≤ op ∧ op ≤ 0x8FF1)),
      if_neg (by omega : ¬(0x8002 ≤ op ∧ op ≤ 0x8FF2)),
      if_neg (by omega : ¬(0x8003 ≤ op ∧ op ≤ 0x8FF3)),
      if_neg (by omega : ¬(0x8004 ≤ op ∧ op ≤ 0x8FF4)),
      if_neg (by omega : ¬(0x8005 ≤ op ∧ op ≤ 0x8FF5)),
      if_neg (by omega : ¬(0x8006 ≤ op ∧ op ≤ 0x8FF6)),
      if_neg (by omega : ¬(0x8007 ≤ op ∧ op ≤ 0x8FF7)),
      if_neg (by omega : ¬(0x800E ≤ op ∧ op ≤ 0x8FFE)),
      if_neg (by omega : ¬(0x9000 ≤ op ∧ op ≤ 0x9FF0)),
      if_neg (by omega : ¬(0xA000 ≤ op ∧ op ≤ 0xAFFF)),
      if_neg (by omega : ¬(0xB000 ≤ op ∧ op ≤ 0xBFFF)),
      if_neg (by omega : ¬(0xC000 ≤ op ∧ op ≤ 0xCFFF)),
      if_pos (by omega : 0xD000 ≤ op ∧ op ≤ 0xDFFF)]

/-- Dispatch of opcodes in [0xE000, 0xE09D]. -/
theorem armOf_r28 (op : Nat) (h1 : 0xE000 ≤ op) (h2 : op ≤ 0xE09D) :
    armOf op = Arm.unknown := by
  delta armOf
  rw [if_neg (by omega : ¬(op = 0x00E0)),
      if_neg (by omega : ¬(op = 0x00EE)),
      if_neg (by omega : ¬(0x1000 ≤ op ∧ op ≤ 0x1FFF)),
      if_neg (by omega : ¬(0x2000 ≤ op ∧ op ≤ 0x2FFF)),
      if_neg (by omega : ¬(0x3000 ≤ op ∧ op ≤ 0x3FFF)),
      if_neg (by omega : ¬(0x4000 ≤ op ∧ op ≤ 0x4FFF)),
      if_neg (by omega : ¬(0x5000 ≤ op ∧ op ≤ 0x5FFF)),
      if_neg (by omega : ¬(0x6000 ≤ op ∧ op ≤ 0x6FFF)),
      if_neg (by omega : ¬(0x7000 ≤ op ∧ op ≤ 0x7FFF)),
      if_neg (by omega : ¬(0x8000 ≤ op ∧ op ≤ 0x8FF0)),
      if_neg (by omega : ¬(0x8001 ≤ op ∧ op ≤ 0x8FF1)),
      if_neg (by omega : ¬(0x8002 ≤ op ∧ op ≤ 0x8FF2)),
      if_neg (by omega : ¬(0x8003 ≤ op ∧ op ≤ 0x8FF3)),
      if_neg (by omega : ¬(0x8004 ≤ op ∧ op ≤ 0x8FF4)),
      if_neg (by omega : ¬(0x8005 ≤ op ∧ op ≤ 0x8FF5)),
      if_neg (by omega : ¬(0x8006 ≤ op ∧ op ≤ 0x8FF6)),
      if_neg (by omega : ¬(0x8007 ≤ op ∧ op ≤ 0x8FF7)),
      if_neg (by omega : ¬(0x800E ≤ op ∧ op ≤ 0x8FFE)),
      if_neg (by omega : ¬(0x9000 ≤ op ∧ op ≤ 0x9FF0)),
      if_neg (by omega : ¬(0xA000 ≤ op ∧ op ≤ 0xAFFF)),
      if_neg (by omega : ¬(0xB000 ≤ op ∧ op ≤ 0xBFFF)),
      if_neg (by omega : ¬(0xC000 ≤ op ∧ op ≤ 0xCFFF)),
      if_neg (by omega : ¬(0xD000 ≤ op ∧ op ≤ 0xDFFF)),
      if_neg (by omega : ¬(0xE09E ≤ op ∧ op ≤ 0xEF9E)),
      if_neg (by omega : ¬(0xE0A1 ≤ op ∧ op ≤ 0xEFA1)),
      if_neg (by omega : ¬(0xF007 ≤ op ∧ op ≤ 0xFF07)),
      if_neg (by omega : ¬(0xF00A ≤ op ∧ op ≤ 0xFF0A)),
      if_neg (by omega : ¬(0xF015 ≤ op ∧ op ≤ 0xFF15)),
      if_neg (by omega : ¬(0xF018 ≤ op ∧ op ≤ 0xFF18)),
      if_neg (by omega : ¬(0xF01E ≤ op ∧ op ≤ 0xFF1E)),
      if_neg (by omega : ¬(0xF029 ≤ op ∧ op ≤ 0xFF29)),
      if_neg (by omega : ¬(0xF033 ≤ op ∧ op ≤ 0xFF33)),
      if_neg (by omega : ¬(0xF055 ≤ op ∧ op ≤ 0xFF55)),
      if_neg (by omega : ¬(0xF065 ≤ op ∧ op ≤ 0xFF65))]

/-- Dispatch of opcodes in [0xE09E, 0xEF9E]. -/
theorem armOf_r29 (op : Nat) (h1 : 0xE09E ≤ op) (h2 : op ≤ 0xEF9E) :
    armOf op = Arm.skp := by
  delta armOf
  rw [if_neg (by omega : ¬(op = 0x00E0)),
      if_neg (by omega : ¬(op = 0x00EE)),
      if_neg (by omega : ¬(0x1000 ≤ op ∧ op ≤ 0x1FFF)),
      if_neg (by omega : ¬(0x2000 ≤ op ∧ op ≤ 0x2FFF)),
      if_neg (by omega : ¬(0x3000 ≤ op ∧ op ≤ 0x3FFF)),
      if_neg (by omega : ¬(0x4000 ≤ op ∧ op ≤ 0x4FFF)),
      if_neg (by omega : ¬(0x5000 ≤ op ∧ op ≤ 0x5FFF)),
      if_neg (by omega : ¬(0x6000 ≤ op ∧ op ≤ 0x6FFF)),
      if_neg (by omega : ¬(0x7000 ≤ op ∧ op ≤ 0x7FFF)),
      if_neg (by omega : ¬(0x8000 ≤ op ∧ op ≤ 0x8FF0)),
      if_neg (by omega : ¬(0x8001 ≤ op ∧ op ≤ 0x8FF1)),
      if_neg (by omega : ¬(0x8002 ≤ op ∧ op ≤ 0x8FF2)),
      if_neg (by omega : ¬(0x8003 ≤ op ∧ op ≤ 0x8FF3)),
      if_neg (by omega : ¬(0x8004 ≤ op ∧ op ≤ 0x8FF4)),
      if_neg (by omega : ¬(0x8005 ≤ op ∧ op ≤ 0x8FF5)),
      if_neg (by omega : ¬(0x8006 ≤ op ∧ op ≤ 0x8FF6)),
      if_neg (by omega : ¬(0x8007 ≤ op ∧ op ≤ 0x8FF7)),
      if_neg (by omega : ¬(0x800E ≤ op ∧ op ≤ 0x8FFE)),
      if_neg (by omega : ¬(0x9000 ≤ op ∧ op ≤ 0x9FF0)),
      if_neg (by omega : ¬(0xA000 ≤ op ∧ op ≤ 0xAFFF)),
      if_neg (by omega : ¬(0xB000 ≤ op ∧ op ≤ 0xBFFF)),
      if_neg (by omega : ¬(0xC000 ≤ op ∧ op ≤ 0xCFFF)),
      if_neg (by omega : ¬(0xD000 ≤ op ∧ op ≤ 0xDFFF)),
      if_pos (by omega : 0xE09E ≤ op ∧ op ≤ 0xEF9E)]

/-- Dispatch of opcodes in [0xEF9F, 0xEFA1]. -/
theorem armOf_r30 (op : Nat) (h1 : 0xEF9F ≤ op) (h2 : op ≤ 0xEFA1) :
    armOf op = Arm.sknp := by
  delta armOf
  rw [if_neg (by omega : ¬(op = 0x00E0)),
      if_neg (by omega : ¬(op = 0x00EE)),
      if_neg (by omega : ¬(0x1000 ≤ op ∧ op ≤ 0x1FFF)),
      if_neg (by omega : ¬(0x2000 ≤ op ∧ op ≤ 0x2FFF)),
      if_neg (by omega : ¬(0x3000 ≤ op ∧ op ≤ 0x3FFF)),
      if_neg (by omega : ¬(0x4000 ≤ op ∧ op ≤ 0x4FFF)),
      if_neg (by omega : ¬(0x5000 ≤ op ∧ op ≤ 0x5FFF)),
      if_neg (by omega : ¬(0x6000 ≤ op ∧ op ≤ 0x6FFF)),
      if_neg (by omega : ¬(0x7000 ≤ op ∧ op ≤ 0x7FFF)),
      if_neg (by omega : ¬(0x8000 ≤ op ∧ op ≤ 0x8FF0)),
      if_neg (by omega : ¬(0x8001 ≤ op ∧ op ≤ 0x8FF1)),
      if_neg (by omega : ¬(0x8002 ≤ op ∧ op ≤ 0x8FF2)),
      if_neg (by omega : ¬(0x8003 ≤ op ∧ op ≤ 0x8FF3)),
      if_neg (by omega : ¬(0x8004 ≤ op ∧ op ≤ 0x8FF4)),
      if_neg (by omega : ¬(0x8005 ≤ op ∧ op ≤ 0x8FF5)),
      if_neg (by omega : ¬(0x8006 ≤ op ∧ op ≤ 0x8FF6)),
      if_neg (by omega : ¬(0x8007 ≤ op ∧ op ≤ 0x8FF7)),
      if_neg (by omega : ¬(0x800E ≤ op ∧ op ≤ 0x8FFE)),
      if_neg (by omega : ¬(0x9000 ≤ op ∧ op ≤ 0x9FF0)),
      if_neg (by omega : ¬(0xA000 ≤ op ∧ op ≤ 0xAFFF)),
      if_neg (by omega : ¬(0xB000 ≤ op ∧ op ≤ 0xBFFF)),
      if_neg (by omega : ¬(0xC000 ≤ op ∧ op ≤ 0xCFFF)),
      if_neg (by omega : ¬(0xD000 ≤ op ∧ op ≤ 0xDFFF)),
      if_neg (by omega : ¬(0xE09E ≤ op ∧ op ≤ 0xEF9E)),
      if_pos (by omega : 0xE0A1 ≤ op ∧ op ≤ 0xEFA1)]

/-- Dispatch of opcodes in [0xEFA2, 0xF006]. -/
theorem armOf_r31 (op : Nat) (h1 : 0xEFA2 ≤ op) (h2 : op ≤ 0xF006) :
    armOf op = Arm.unknown := by
  delta armOf
  rw [if_neg (by omega : ¬(op = 0x00E0)),
      if_neg (by omega : ¬(op = 0x00EE)),
      if_neg (by omega : ¬(0x1000 ≤ op ∧ op ≤ 0x1FFF)),
      if_neg (by omega : ¬(0x2000 ≤ op ∧ op ≤ 0x2FFF)),
      if_neg (by omega : ¬(0x3000 ≤ op ∧ op ≤ 0x3FFF)),
      if_neg (by omega : ¬(0x4000 ≤ op ∧ op ≤ 0x4FFF)),
      if_neg (by omega : ¬(0x5000 ≤ op ∧ op ≤ 0x5FFF)),
      if_neg (by omega : ¬(0x6000 ≤ op ∧ op ≤ 0x6FFF)),
      if_neg (by omega : ¬(0x7000 ≤ op ∧ op ≤ 0x7FFF)),
      if_neg (by omega : ¬(0x8000 ≤ op ∧ op ≤ 0x8FF0)),
      if_neg (by omega : ¬(0x8001 ≤ op ∧ op ≤ 0x8FF1)),
      if_neg (by omega : ¬(0x8002 ≤ op ∧ op ≤ 0x8FF2)),
      if_neg (by omega : ¬(0x8003 ≤ op ∧ op ≤ 0x8FF3)),
      if_neg (by omega : ¬(0x8004 ≤ op ∧ op ≤ 0x8FF4)),
      if_neg (by omega : ¬(0x8005 ≤ op ∧ op ≤ 0x8FF5)),
      if_neg (by omega : ¬(0x8006 ≤ op ∧ op ≤ 0x8FF6)),
      if_neg (by omega : ¬(0x8007 ≤ op ∧ op ≤ 0x8FF7)),
      if_neg (by omega : ¬(0x800E ≤ op ∧ op ≤ 0x8FFE)),
      if_neg (by omega : ¬(0x9000 ≤ op ∧ op ≤ 0x9FF0)),
      if_neg (by omega : ¬(0xA000 ≤ op ∧ op ≤ 0xAFFF)),
      if_neg (by omega : ¬(0xB000 ≤ op ∧ op ≤ 0xBFFF)),
      if_neg (by omega : ¬(0xC000 ≤ op ∧ op ≤ 0xCFFF)),
      if_neg (by omega : ¬(0xD000 ≤ op ∧ op ≤ 0xDFFF)),
      if_neg (by omega : ¬(0xE09E ≤ op ∧ op ≤ 0xEF9E)),
      if_neg (by omega : ¬(0xE0A1 ≤ op ∧ op ≤ 0xEFA1)),
      if_neg (by omega : ¬(0xF007 ≤ op ∧ op ≤ 0xFF07)),
      if_neg (by omega : ¬(0xF00A ≤ op ∧ op ≤ 0xFF0A)),
      if_neg (by omega : ¬(0xF015 ≤ op ∧ op ≤ 0xFF15)),
      if_neg (by omega : ¬(0xF018 ≤ op ∧ op ≤ 0xFF18)),
      if_neg (by omega : ¬(0xF01E ≤ op ∧ op ≤ 0xFF1E)),
      if_neg (by omega : ¬(0xF029 ≤ op ∧ op ≤ 0xFF29)),
      if_neg (by omega : ¬(0xF033 ≤ op ∧ op ≤ 0xFF33)),
      if_neg (by omega : ¬(0xF055 ≤ op ∧ op ≤ 0xFF55)),
      if_neg (by omega : ¬(0xF065 ≤ op ∧ op ≤ 0xFF65))]

/-- Dispatch of opcodes in [0xF007, 0xFF07]. -/
theorem armOf_r32 (op : Nat) (h1 : 0xF007 ≤ op) (h2 : op ≤ 0xFF07) :
    armOf op = Arm.ld_dt := by
  delta armOf
  rw [if_neg (by omega : ¬(op = 0x00E0)),
      if_neg (by omega : ¬(op = 0x00EE)),
      if_neg (by omega : ¬(0x1000 ≤ op ∧ op ≤ 0x1FFF)),
      if_neg (by omega : ¬(0x2000 ≤ op ∧ op ≤ 0x2FFF)),
      if_neg (by omega : ¬(0x3000 ≤ op ∧ op ≤ 0x3FFF)),
      if_neg (by omega : ¬(0x4000 ≤ op ∧ op ≤ 0x4FFF)),
      if_neg (by omega : ¬(0x5000 ≤ op ∧ op ≤ 0x5FFF)),
      if_neg (by omega : ¬(0x6000 ≤ op ∧ op ≤ 0x6FFF)),
      if_neg (by omega : ¬(0x7000 ≤ op ∧ op ≤ 0x7FFF)),
      if_neg (by omega : ¬(0x8000 ≤ op ∧ op ≤ 0x8FF0)),
      if_neg (by omega : ¬(0x8001 ≤ op ∧ op ≤ 0x8FF1)),
      if_neg (by omega : ¬(0x8002 ≤ op ∧ op ≤ 0x8FF2)),
      if_neg (by omega : ¬(0x8003 ≤ op ∧ op ≤ 0x8FF3)),
      if_neg (by omega : ¬(0x8004 ≤ op ∧ op ≤ 0x8FF4)),
      if_neg (by omega : ¬(0x8005 ≤ op ∧ op ≤ 0x8FF5)),
      if_neg (by omega : ¬(0x8006 ≤ op ∧ op ≤ 0x8FF6)),
      if_neg (by omega : ¬(0x8007 ≤ op ∧ op ≤ 0x8FF7)),
      if_neg (by omega : ¬(0x800E ≤ op ∧ op ≤ 0x8FFE)),
      if_neg (by omega : ¬(0x9000 ≤ op ∧ op ≤ 0x9FF0)),
      if_neg (by omega : ¬(0xA000 ≤ op ∧ op ≤ 0xAFFF)),
      if_neg (by omega : ¬(0xB000 ≤ op ∧ op ≤ 0xBFFF)),
      if_neg (by omega : ¬(0xC000 ≤ op ∧ op ≤ 0xCFFF)),
      if_neg (by omega : ¬(0xD000 ≤ op ∧ op ≤ 0xDFFF)),
      if_neg (by omega : ¬(0xE09E ≤ op ∧ op ≤ 0xEF9E)),
      if_neg (by omega : ¬(0xE0A1 ≤ op ∧ op ≤ 0xEFA1)),
      if_pos (by omega : 0xF007 ≤ op ∧ op ≤ 0xFF07)]

/-- Dispatch of opcodes in [0xFF08, 0xFF0A]. -/
theorem armOf_r33 (op : Nat) (h1 : 0xFF08 ≤ op) (h2 : op ≤ 0xFF0A) :
    armOf op = Arm.ld_key := by
  delta armOf
  rw [if_neg (by omega : ¬(op = 0x00E0)),
      if_neg (by omega : ¬(op = 0x00EE)),
      if_neg (by omega : ¬(0x1000 ≤ op ∧ op ≤ 0x1FFF)),
      if_neg (by omega : ¬(0x2000 ≤ op ∧ op ≤ 0x2FFF)),
      if_neg (by omega : ¬(0x3000 ≤ op ∧ op ≤ 0x3FFF)),
      if_neg (by omega : ¬(0x4000 ≤ op ∧ op ≤ 0x4FFF)),
      if_neg (by omega : ¬(0x5000 ≤ op ∧ op ≤ 0x5FFF)),
      if_neg (by omega : ¬(0x6000 ≤ op ∧ op ≤ 0x6FFF)),
      if_neg (by omega : ¬(0x7000 ≤ op ∧ op ≤ 0x7FFF)),
      if_neg (by omega : ¬(0x8000 ≤ op ∧ op ≤ 0x8FF0)),
      if_neg (by omega : ¬(0x8001 ≤ op ∧ op ≤ 0x8FF1)),
      if_neg (by omega : ¬(0x8002 ≤ op ∧ op ≤ 0x8FF2)),
      if_neg (by omega : ¬(0x8003 ≤ op ∧ op ≤ 0x8FF3)),
      if_neg (by omega : ¬(0x8004 ≤ op ∧ op ≤ 0x8FF4)),
      if_neg (by omega : ¬(0x8005 ≤ op ∧ op ≤ 0x8FF5)),
      if_neg (by omega : ¬(0x8006 ≤ op ∧ op ≤ 0x8FF6)),
      if_neg (by omega : ¬(0x8007 ≤ op ∧ op ≤ 0x8FF7)),
      if_neg (by omega : ¬(0x800E ≤ op ∧ op ≤ 0x8FFE)),
      if_neg (by omega : ¬(0x9000 ≤ op ∧ op ≤ 0x9FF0)),
      if_neg (by omega : ¬(0xA000 ≤ op ∧ op ≤ 0xAFFF)),
      if_neg (by omega : ¬(0xB000 ≤ op ∧ op ≤ 0xBFFF)),
      if_neg (by omega : ¬(0xC000 ≤ op ∧ op ≤ 0xCFFF)),
      if_neg (by omega : ¬(0xD000 ≤ op ∧ op ≤ 0xDFFF)),
      if_neg (by omega : ¬(0xE09E ≤ op ∧ op ≤ 0xEF9E)),
      if_neg (by omega : ¬(0xE0A1 ≤ op ∧ op ≤ 0xEFA1)),
      if_neg (by omega : ¬(0xF007 ≤ op ∧ op ≤ 0xFF07)),
      if_pos (by omega : 0xF00A ≤ op ∧ op ≤ 0xFF0A)]

/-- Dispatch of opcodes in [0xFF0B, 0xFF15]. -/
theorem armOf_r34 (op : Nat) (h1 : 0xFF0B ≤ op) (h2 : op ≤ 0xFF15) :
    armOf op = Arm.set_dt := by
  delta armOf
  rw [if_neg (by omega : ¬(op = 0x00E0)),
      if_neg (by omega : ¬(op = 0x00EE)),
      if_neg (by omega : ¬(0x1000 ≤ op ∧ op ≤ 0x1FFF)),
      if_neg (by omega : ¬(0x2000 ≤ op ∧ op ≤ 0x2FFF)),
      if_neg (by omega : ¬(0x3000 ≤ op ∧ op ≤ 0x3FFF)),
      if_neg (by omega : ¬(0x4000 ≤ op ∧ op ≤ 0x4FFF)),
      if_neg (by omega : ¬(0x5000 ≤ op ∧ op ≤ 0x5FFF)),
      if_neg (by omega : ¬(0x6000 ≤ op ∧ op ≤ 0x6FFF)),
      if_neg (by omega : ¬(0x7000 ≤ op ∧ op ≤ 0x7FFF)),
      if_neg (by omega : ¬(0x8000 ≤ op ∧ op ≤ 0x8FF0)),
      if_neg (by omega : ¬(0x8001 ≤ op ∧ op ≤ 0x8FF1)),
      if_neg (by omega : ¬(0x8002 ≤ op ∧ op ≤ 0x8FF2)),
      if_neg (by omega : ¬(0x8003 ≤ op ∧ op ≤ 0x8FF3)),
      if_neg (by omega : ¬(0x8004 ≤ op ∧ op ≤ 0x8FF4)),
      if_neg (by omega : ¬(0x8005 ≤ op ∧ op ≤ 0x8FF5)),
      if_neg (by omega : ¬(0x8006 ≤ op ∧ op ≤ 0x8FF6)),
      if_neg (by omega : ¬(0x8007 ≤ op ∧ op ≤ 0x8FF7)),
      if_neg (by omega : ¬(0x800E ≤ op ∧ op ≤ 0x8FFE)),
      if_neg (by omega : ¬(0x9000 ≤ op ∧ op ≤ 0x9FF0)),
      if_neg (by omega : ¬(0xA000 ≤ op ∧ op ≤ 0xAFFF)),
      if_neg (by omega : ¬(0xB000 ≤ op ∧ op ≤ 0xBFFF)),
      if_neg (by omega : ¬(0xC000 ≤ op ∧ op ≤ 0xCFFF)),
      if_neg (by omega : ¬(0xD000 ≤ op ∧ op ≤ 0xDFFF)),
      if_neg (by omega : ¬(0xE09E ≤ op ∧ op ≤ 0xEF9E)),
      if_neg (by omega : ¬(0xE0A1 ≤ op ∧ op ≤ 0xEFA1)),
      if_neg (by omega : ¬(0xF007 ≤ op ∧ op ≤ 0xFF07)),
      if_neg (by omega : ¬(0xF00A ≤ op ∧ op ≤ 0xFF0A)),
      if_pos (by omega : 0xF015 ≤ op ∧ op ≤ 0xFF15)]

/-- Dispatch of opcodes in [0xFF16, 0xFF18]. -/
theorem armOf_r35 (op : Nat) (h1 : 0xFF16 ≤ op) (h2 : op ≤ 0xFF18) :
    armOf op = Arm.set_st := by
  delta armOf
  rw [if_neg (by omega : ¬(op = 0x00E0)),
      if_neg (by omega : ¬(op = 0x00EE)),
      if_neg (by omega : ¬(0x1000 ≤ op ∧ op ≤ 0x1FFF)),
      if_neg (by omega : ¬(0x2000 ≤ op ∧ op ≤ 0x2FFF)),
      if_neg (by omega : ¬(0x3000 ≤ op ∧ op ≤ 0x3FFF)),
      if_neg (by omega : ¬(0x4000 ≤ op ∧ op ≤ 0x4FFF)),
      if_neg (by omega : ¬(0x5000 ≤ op ∧ op ≤ 0x5FFF)),
      if_neg (by omega : ¬(0x6000 ≤ op ∧ op ≤ 0x6FFF)),
      if_neg (by omega : ¬(0x7000 ≤ op ∧ op ≤ 0x7FFF)),
      if_neg (by omega : ¬(0x8000 ≤ op ∧ op ≤ 0x8FF0)),
      if_neg (by omega : ¬(0x8001 ≤ op ∧ op ≤ 0x8FF1)),
      if_neg (by omega : ¬(0x8002 ≤ op ∧ op ≤ 0x8FF2)),
      if_neg (by omega : ¬(0x8003 ≤ op ∧ op ≤ 0x8FF3)),
      if_neg (by omega : ¬(0x8004 ≤ op ∧ op ≤ 0x8FF4)),
      if_neg (by omega : ¬(0x8005 ≤ op ∧ op ≤ 0x8FF5)),
      if_neg (by omega : ¬(0x8006 ≤ op ∧ op ≤ 0x8FF6)),
      if_neg (by omega : ¬(0x8007 ≤ op ∧ op ≤ 0x8FF7)),
      if_neg (by omega : ¬(0x800E ≤ op ∧ op ≤ 0x8FFE)),
      if_neg (by omega : ¬(0x9000 ≤ op ∧ op ≤ 0x9FF0)),
      if_neg (by omega : ¬(0xA000 ≤ op ∧ op ≤ 0xAFFF)),
      if_neg (by omega : ¬(0xB000 ≤ op ∧ op ≤ 0xBFFF)),
      if_neg (by omega : ¬(0xC000 ≤ op ∧ op ≤ 0xCFFF)),
      if_neg (by omega : ¬(0xD000 ≤ op ∧ op ≤ 0xDFFF)),
      if_neg (by omega : ¬(0xE09E ≤ op ∧ op ≤ 0xEF9E)),
      if_neg (by omega : ¬(0xE0A1 ≤ op ∧ op ≤ 0xEFA1)),
      if_neg (by omega : ¬(0xF007 ≤ op ∧ op ≤ 0xFF07)),
      if_neg (by omega : ¬(0xF00A ≤ op ∧ op ≤ 0xFF0A)),
      if_neg (by omega : ¬(0xF015 ≤ op ∧ op ≤ 0xFF15)),
      if_pos (by omega : 0xF018 ≤ op ∧ op ≤ 0xFF18)]

/-- Dispatch of opcodes in [0xFF19, 0xFF1E]. -/
theorem armOf_r36 (op : Nat) (h1 : 0xFF19 ≤ op) (h2 : op ≤ 0xFF1E) :
    armOf op = Arm.add_i := by
  delta armOf
  rw [if_neg (by omega : ¬(op = 0x00E0)),
      if_neg (by omega : ¬(op = 0x00EE)),
      if_neg (by omega : ¬(0x1000 ≤ op ∧ op ≤ 0x1FFF)),
      if_neg (by omega : ¬(0x2000 ≤ op ∧ op ≤ 0x2FFF)),
      if_neg (by omega : ¬(0x3000 ≤ op ∧ op ≤ 0x3FFF)),
      if_neg (by omega : ¬(0x4000 ≤ op ∧ op ≤ 0x4FFF)),
      if_neg (by omega : ¬(0x5000 ≤ op ∧ op ≤ 0x5FFF)),
      if_neg (by omega : ¬(0x6000 ≤ op ∧ op ≤ 0x6FFF)),
      if_neg (by omega : ¬(0x7000 ≤ op ∧ op ≤ 0x7FFF)),
      if_neg (by omega : ¬(0x8000 ≤ op ∧ op ≤ 0x8FF0)),
      if_neg (by omega : ¬(0x8001 ≤ op ∧ op ≤ 0x8FF1)),
      if_neg (by omega : ¬(0x8002 ≤ op ∧ op ≤ 0x8FF2)),
      if_neg (by omega : ¬(0x8003 ≤ op ∧ op ≤ 0x8FF3)),
      if_neg (by omega : ¬(0x8004 ≤ op ∧ op ≤ 0x8FF4)),
      if_neg (by omega : ¬(0x8005 ≤ op ∧ op ≤ 0x8FF5)),
      if_neg (by omega : ¬(0x8006 ≤ op ∧ op ≤ 0x8FF6)),
      if_neg (by omega : ¬(0x8007 ≤ op ∧ op ≤ 0x8FF7)),
      if_neg (by omega : ¬(0x800E ≤ op ∧ op ≤ 0x8FFE)),
      if_neg (by omega : ¬(0x9000 ≤ op ∧ op ≤ 0x9FF0)),
      if_neg (by omega : ¬(0xA000 ≤ op ∧ op ≤ 0xAFFF)),
      if_neg (by omega : ¬(0xB000 ≤ op ∧ op ≤ 0xBFFF)),
      if_neg (by omega : ¬(0xC000 ≤ op ∧ op ≤ 0xCFFF)),
      if_neg (by omega : ¬(0xD000 ≤ op ∧ op ≤ 0xDFFF)),
      if_neg (by omega : ¬(0xE09E ≤ op ∧ op ≤ 0xEF9E)),
      if_neg (by omega : ¬(0xE0A1 ≤ op ∧ op ≤ 0xEFA1)),
      if_neg (by omega : ¬(0xF007 ≤ op ∧ op ≤ 0xFF07)),
      if_neg (by omega : ¬(0xF00A ≤ op ∧ op ≤ 0xFF0A)),
      if_neg (by omega : ¬(0xF015 ≤ op ∧ op ≤ 0xFF15)),
      if_neg (by omega : ¬(0xF018 ≤ op ∧ op ≤ 0xFF18)),
      if_pos (by omega : 0xF01E ≤ op ∧ op ≤ 0xFF1E)]

/-- Dispatch of opcodes in [0xFF1F, 0xFF29]. -/
theorem armOf_r37 (op : Nat) (h1 : 0xFF1F ≤ op) (h2 : op ≤ 0xFF29) :
    armOf op = Arm.ld_font := by
  delta armOf
  rw [if_neg (by omega : ¬(op = 0x00E0)),
      if_neg (by omega : ¬(op = 0x00EE)),
      if_neg (by omega : ¬(0x1000 ≤ op ∧ op ≤ 0x1FFF)),
      if_neg (by omega : ¬(0x2000 ≤ op ∧ op ≤ 0x2FFF)),
      if_neg (by omega : ¬(0x3000 ≤ op ∧ op ≤ 0x3FFF)),
      if_neg (by omega : ¬(0x4000 ≤ op ∧ op ≤ 0x4FFF)),
      if_neg (by omega : ¬(0x5000 ≤ op ∧ op ≤ 0x5FFF)),
      if_neg (by omega : ¬(0x6000 ≤ op ∧ op ≤ 0x6FFF)),
      if_neg (by omega : ¬(0x7000 ≤ op ∧ op ≤ 0x7FFF)),
      if_neg (by omega : ¬(0x8000 ≤ op ∧ op ≤ 0x8FF0)),
      if_neg (by omega : ¬(0x8001 ≤ op ∧ op ≤ 0x8FF1)),
      if_neg (by omega : ¬(0x8002 ≤ op ∧ op ≤ 0x8FF2)),
      if_neg (by omega : ¬(0x8003 ≤ op ∧ op ≤ 0x8FF3)),
      if_neg (by omega : ¬(0x8004 ≤ op ∧ op ≤ 0x8FF4)),
      if_neg (by omega : ¬(0x8005 ≤ op ∧ op ≤ 0x8FF5)),
      if_neg (by omega : ¬(0x8006 ≤ op ∧ op ≤ 0x8FF6)),
      if_neg (by omega : ¬(0x8007 ≤ op ∧ op ≤ 0x8FF7)),
      if_neg (by omega : ¬(0x800E ≤ op ∧ op ≤ 0x8FFE)),
      if_neg (by omega : ¬(0x9000 ≤ op ∧ op ≤ 0x9FF0)),
      if_neg (by omega : ¬(0xA000 ≤ op ∧ op ≤ 0xAFFF)),
      if_neg (by omega : ¬(0xB000 ≤ op ∧ op ≤ 0xBFFF)),
      if_neg (by omega : ¬(0xC000 ≤ op ∧ op ≤ 0xCFFF)),
      if_neg (by omega : ¬(0xD000 ≤ op ∧ op ≤ 0xDFFF)),
      if_neg (by omega : ¬(0xE09E ≤ op ∧ op ≤ 0xEF9E)),
      if_neg (by omega : ¬(0xE0A1 ≤ op ∧ op ≤ 0xEFA1)),
      if_neg (by omega : ¬(0xF007 ≤ op ∧ op ≤ 0xFF07)),
      if_neg (by omega : ¬(0xF00A ≤ op ∧ op ≤ 0xFF0A)),
      if_neg (by omega : ¬(0xF015 ≤ op ∧ op ≤ 0xFF15)),
      if_neg (by omega : ¬(0xF018 ≤ op ∧ op ≤ 0xFF18)),
      if_neg (by omega : ¬(0xF01E ≤ op ∧ op ≤ 0xFF1E)),
      if_pos (by omega : 0xF029 ≤ op ∧ op ≤ 0xFF29)]

/-- Dispatch of opcodes in [0xFF2A, 0xFF33]. -/
theorem armOf_r38 (op : Nat) (h1 : 0xFF2A ≤ op) (h2 : op ≤ 0xFF33) :
    armOf op = Arm.bcd := by
  delta armOf
  rw [if_neg (by omega : ¬(op = 0x00E0)),
      if_neg (by omega : ¬(op = 0x00EE)),
      if_neg (by omega : ¬(0x1000 ≤ op ∧ op ≤ 0x1FFF)),
      if_neg (by omega : ¬(0x2000 ≤ op ∧ op ≤ 0x2FFF)),
      if_neg (by omega : ¬(0x3000 ≤ op ∧ op ≤ 0x3FFF)),
      if_neg (by omega : ¬(0x4000 ≤ op ∧ op ≤ 0x4FFF)),
      if_neg (by omega : ¬(0x5000 ≤ op ∧ op ≤ 0x5FFF)),
      if_neg (by omega : ¬(0x6000 ≤ op ∧ op ≤ 0x6FFF)),
      if_neg (by omega : ¬(0x7000 ≤ op ∧ op ≤ 0x7FFF)),
      if_neg (by omega : ¬(0x8000 ≤ op ∧ op ≤ 0x8FF0)),
      if_neg (by omega : ¬(0x8001 ≤ op ∧ op ≤ 0x8FF1)),
      if_neg (by omega : ¬(0x8002 ≤ op ∧ op ≤ 0x8FF2)),
      if_neg (by omega : ¬(0x8003 ≤ op ∧ op ≤ 0x8FF3)),
      if_neg (by omega : ¬(0x8004 ≤ op ∧ op ≤ 0x8FF4)),
      if_neg (by omega : ¬(0x8005 ≤ op ∧ op ≤ 0x8FF5)),
      if_neg (by omega : ¬(0x8006 ≤ op ∧ op ≤ 0x8FF6)),
      if_neg (by omega : ¬(0x8007 ≤ op ∧ op ≤ 0x8FF7)),
      if_neg (by omega : ¬(0x800E ≤ op ∧ op ≤ 0x8FFE)),
      if_neg (by omega : ¬(0x9000 ≤ op ∧ op ≤ 0x9FF0)),
      if_neg (by omega : ¬(0xA000 ≤ op ∧ op ≤ 0xAFFF)),
      if_neg (by omega : ¬(0xB000 ≤ op ∧ op ≤ 0xBFFF)),
      if_neg (by omega : ¬(0xC000 ≤ op ∧ op ≤ 0xCFFF)),
      if_neg (by omega : ¬(0xD000 ≤ op ∧ op ≤ 0xDFFF)),
      if_neg (by omega : ¬(0xE09E ≤ op ∧ op ≤ 0xEF9E)),
      if_neg (by omega : ¬(0xE0A1 ≤ op ∧ op ≤ 0xEFA1)),
      if_neg (by omega : ¬(0xF007 ≤ op ∧ op ≤ 0xFF07)),
      if_neg (by omega : ¬(0xF00A ≤ op ∧ op ≤ 0xFF0A)),
      if_neg (by omega : ¬(0xF015 ≤ op ∧ op ≤ 0xFF15)),
      if_neg (by omega : ¬(0xF018 ≤ op ∧ op ≤ 0xFF18)),
      if_neg (by omega : ¬(0xF01E ≤ op ∧ op ≤ 0xFF1E)),
      if_neg (by omega : ¬(0xF029 ≤ op ∧ op ≤ 0xFF29)),
      if_pos (by omega : 0xF033 ≤ op ∧ op ≤ 0xFF33)]

/-- Dispatch of opcodes in [0xFF34, 0xFF55]. -/
theorem armOf_r39 (op : Nat) (h1 : 0xFF34 ≤ op) (h2 : op ≤ 0xFF55) :
    armOf op = Arm.st_regs := by
  delta armOf
  rw [if_neg (by omega : ¬(op = 0x00E0)),
      if_neg (by omega : ¬(op = 0x00EE)),
      if_neg (by omega : ¬(0x1000 ≤ op ∧ op ≤ 0x1FFF)),
      if_neg (by omega : ¬(0x2000 ≤ op ∧ op ≤ 0x2FFF)),
      if_neg (by omega : ¬(0x3000 ≤ op ∧ op ≤ 0x3FFF)),
      if_neg (by omega : ¬(0x4000 ≤ op ∧ op ≤ 0x4FFF)),
      if_neg (by omega : ¬(0x5000 ≤ op ∧ op ≤ 0x5FFF)),
      if_neg (by omega : ¬(0x6000 ≤ op ∧ op ≤ 0x6FFF)),
      if_neg (by omega : ¬(0x7000 ≤ op ∧ op ≤ 0x7FFF)),
      if_neg (by omega : ¬(0x8000 ≤ op ∧ op ≤ 0x8FF0)),
      if_neg (by omega : ¬(0x8001 ≤ op ∧ op ≤ 0x8FF1)),
      if_neg (by omega : ¬(0x8002 ≤ op ∧ op ≤ 0x8FF2)),
      if_neg (by omega : ¬(0x8003 ≤ op ∧ op ≤ 0x8FF3)),
      if_neg (by omega : ¬(0x8004 ≤ op ∧ op ≤ 0x8FF4)),
      if_neg (by omega : ¬(0x8005 ≤ op ∧ op ≤ 0x8FF5)),
      if_neg (by omega : ¬(0x8006 ≤ op ∧ op ≤ 0x8FF6)),
      if_neg (by omega : ¬(0x8007 ≤ op ∧ op ≤ 0x8FF7)),
      if_neg (by omega : ¬(0x800E ≤ op ∧ op ≤ 0x8FFE)),
      if_neg (by omega : ¬(0x9000 ≤ op ∧ op ≤ 0x9FF0)),
      if_neg (by omega : ¬(0xA000 ≤ op ∧ op ≤ 0xAFFF)),
      if_neg (by omega : ¬(0xB000 ≤ op ∧ op ≤ 0xBFFF)),
      if_neg (by omega : ¬(0xC000 ≤ op ∧ op ≤ 0xCFFF)),
      if_neg (by omega : ¬(0xD000 ≤ op ∧ op ≤ 0xDFFF)),
      if_neg (by omega : ¬(0xE09E ≤ op ∧ op ≤ 0xEF9E)),
      if_neg (by omega : ¬(0xE0A1 ≤ op ∧ op ≤ 0xEFA1)),
      if_neg (by omega : ¬(0xF007 ≤ op ∧ op ≤ 0xFF07)),
      if_neg (by omega : ¬(0xF00A ≤ op ∧ op ≤ 0xFF0A)),
      if_neg (by omega : ¬(0xF015 ≤ op ∧ op ≤ 0xFF15)),
      if_neg (by omega : ¬(0xF018 ≤ op ∧ op ≤ 0xFF18)),
      if_neg (by omega : ¬(0xF01E ≤ op ∧ op ≤ 0xFF1E)),
      if_neg (by omega : ¬(0xF029 ≤ op ∧ op ≤ 0xFF29)),
      if_neg (by omega : ¬(0xF033 ≤ op ∧ op ≤ 0xFF33)),
      if_pos (by omega : 0xF055 ≤ op ∧ op ≤ 0xFF55)]

/-- Dispatch of opcodes in [0xFF56, 0xFF65]. -/
theorem armOf_r40 (op : Nat) (h1 : 0xFF56 ≤ op) (h2 : op ≤ 0xFF65) :
    armOf op = Arm.ld_regs := by
  delta armOf
  rw [if_neg (by omega : ¬(op = 0x00E0)),
      if_neg (by omega : ¬(op = 0x00EE)),
      if_neg (by omega : ¬(0x1000 ≤ op ∧ op ≤ 0x1FFF)),
      if_neg (by omega : ¬(0x2000 ≤ op ∧ op ≤ 0x2FFF)),
      if_neg (by omega : ¬(0x3000 ≤ op ∧ op ≤ 0x3FFF)),
      if_neg (by omega : ¬(0x4000 ≤ op ∧ op ≤ 0x4FFF)),
      if_neg (by omega : ¬(0x5000 ≤ op ∧ op ≤ 0x5FFF)),
      if_neg (by omega : ¬(0x6000 ≤ op ∧ op ≤ 0x6FFF)),
      if_neg (by omega : ¬(0x7000 ≤ op ∧ op ≤ 0x7FFF)),
      if_neg (by omega : ¬(0x8000 ≤ op ∧ op ≤ 0x8FF0)),
      if_neg (by omega : ¬(0x8001 ≤ op ∧ op ≤ 0x8FF1)),
      if_neg (by omega : ¬(0x8002 ≤ op ∧ op ≤ 0x8FF2)),
      if_neg (by omega : ¬(0x8003 ≤ op ∧ op ≤ 0x8FF3)),
      if_neg (by omega : ¬(0x8004 ≤ op ∧ op ≤ 0x8FF4)),
      if_neg (by omega : ¬(0x8005 ≤ op ∧ op ≤ 0x8FF5)),
      if_neg (by omega : ¬(0x8006 ≤ op ∧ op ≤ 0x8FF6)),
      if_neg (by omega : ¬(0x8007 ≤ op ∧ op ≤ 0x8FF7)),
      if_neg (by omega : ¬(0x800E ≤ op ∧ op ≤ 0x8FFE)),
      if_neg (by omega : ¬(0x9000 ≤ op ∧ op ≤ 0x9FF0)),
      if_neg (by omega : ¬(0xA000 ≤ op ∧ op ≤ 0xAFFF)),
      if_neg (by omega : ¬(0xB000 ≤ op ∧ op ≤ 0xBFFF)),
      if_neg (by omega : ¬(0xC000 ≤ op ∧ op ≤ 0xCFFF)),
      if_neg (by omega : ¬(0xD000 ≤ op ∧ op ≤ 0xDFFF)),
      if_neg (by omega : ¬(0xE09E ≤ op ∧ op ≤ 0xEF9E)),
      if_neg (by omega : ¬(0xE0A1 ≤ op ∧ op ≤ 0xEFA1)),
      if_neg (by omega : ¬(0xF007 ≤ op ∧ op ≤ 0xFF07)),
      if_neg (by omega : ¬(0xF00A ≤ op ∧ op ≤ 0xFF0A)),
      if_neg (by omega : ¬(0xF015 ≤ op ∧ op ≤ 0xFF15)),
      if_neg (by omega : ¬(0xF018 ≤ op ∧ op ≤ 0xFF18)),
      if_neg (by omega : ¬(0xF01E ≤ op ∧ op ≤ 0xFF1E)),
      if_neg (by omega : ¬(0xF029 ≤ op ∧ op ≤ 0xFF29)),
      if_neg (by omega : ¬(0xF033 ≤ op ∧ op ≤ 0xFF33)),
      if_neg (by omega : ¬(0xF055 ≤ op ∧ op ≤ 0xFF55)),
      if_pos (by omega : 0xF065 ≤ op ∧ op ≤ 0xFF65)]

/-- Dispatch of opcodes in [0xFF66, ∞]. -/
theorem armOf_r41 (op : Nat) (h1 : 0xFF66 ≤ op) :
    armOf op = Arm.unknown := by
  delta armOf
  rw [if_neg (by omega : ¬(op = 0x00E0)),
      if_neg (by omega : ¬(op = 0x00EE)),
      if_neg (by omega : ¬(0x1000 ≤ op ∧ op ≤ 0x1FFF)),
      if_neg (by omega : ¬(0x2000 ≤ op ∧ op ≤ 0x2FFF)),
      if_neg (by omega : ¬(0x3000 ≤ op ∧ op ≤ 0x3FFF)),
      if_neg (by omega : ¬(0x4000 ≤ op ∧ op ≤ 0x4FFF)),
      if_neg (by omega : ¬(0x5000 ≤ op ∧ op ≤ 0x5FFF)),
      if_neg (by omega : ¬(0x6000 ≤ op ∧ op ≤ 0x6FFF)),
      if_neg (by omega : ¬(0x7000 ≤ op ∧ op ≤ 0x7FFF)),
      if_neg (by omega : ¬(0x8000 ≤ op ∧ op ≤ 0x8FF0)),
      if_neg (by omega : ¬(0x8001 ≤ op ∧ op ≤ 0x8FF1)),
      if_neg (by omega : ¬(0x8002 ≤ op ∧ op ≤ 0x8FF2)),
      if_neg (by omega : ¬(0x8003 ≤ op ∧ op ≤ 0x8FF3)),
      if_neg (by omega : ¬(0x8004 ≤ op ∧ op ≤ 0x8FF4)),
      if_neg (by omega : ¬(0x8005 ≤ op ∧ op ≤ 0x8FF5)),
      if_neg (by omega : ¬(0x8006 ≤ op ∧ op ≤ 0x8FF6)),
      if_neg (by omega : ¬(0x8007 ≤ op ∧ op ≤ 0x8FF7)),
      if_neg (by omega : ¬(0x800E ≤ op ∧ op ≤ 0x8FFE)),
      if_neg (by omega : ¬(0x9000 ≤ op ∧ op ≤ 0x9FF0)),
      if_neg (by omega : ¬(0xA000 ≤ op ∧ op ≤ 0xAFFF)),
      if_neg (by omega : ¬(0xB000 ≤ op ∧ op ≤ 0xBFFF)),
      if_neg (by omega : ¬(0xC000 ≤ op ∧ op ≤ 0xCFFF)),
      if_neg (by omega : ¬(0xD000 ≤ op ∧ op ≤ 0xDFFF)),
      if_neg (by omega : ¬(0xE09E ≤ op ∧ op ≤ 0xEF9E)),
      if_neg (by omega : ¬(0xE0A1 ≤ op ∧ op ≤ 0xEFA1)),
      if_neg (by omega : ¬(0xF007 ≤ op ∧ op ≤ 0xFF07)),
      if_neg (by omega : ¬(0xF00A ≤ op ∧ op ≤ 0xFF0A)),
      if_neg (by omega : ¬(0xF015 ≤ op ∧ op ≤ 0xFF15)),
      if_neg (by omega : ¬(0xF018 ≤ op ∧ op ≤ 0xFF18)),
      if_neg (by omega : ¬(0xF01E ≤ op ∧ op ≤ 0xFF1E)),
      if_neg (by omega : ¬(0xF029 ≤ op ∧ op ≤ 0xFF29)),
      if_neg (by omega : ¬(0xF033 ≤ op ∧ op ≤ 0xFF33)),
      if_neg (by omega : ¬(0xF055 ≤ op ∧ op ≤ 0xFF55)),
      if_neg (by omega : ¬(0xF065 ≤ op ∧ op ≤ 0xFF65))]

/-- The SUB arm is reached by exactly one opcode, 0x8FF5. -/
theorem armOf_sub_reg_iff (op : Nat) : armOf op = Arm.sub_reg ↔ op = 0x8FF5 := by
  constructor
  · intro h
    by_contra hb
    rcases (by omega : (0x0000 ≤ op ∧ op ≤ 0x00DF) ∨ op = 0x00E0 ∨ (0x00E1 ≤ op ∧ op ≤ 0x00ED) ∨ op = 0x00EE ∨ (0x00EF ≤ op ∧ op ≤ 0x0FFF) ∨ (0x1000 ≤ op ∧ op ≤ 0x1FFF) ∨ (0x2000 ≤ op ∧ op ≤ 0x2FFF) ∨ (0x3000 ≤ op ∧ op ≤ 0x3FFF) ∨ (0x4000 ≤ op ∧ op ≤ 0x4FFF) ∨ (0x5000 ≤ op ∧ op ≤ 0x5FFF) ∨ (0x6000 ≤ op ∧ op ≤ 0x6FFF) ∨ (0x7000 ≤ op ∧ op ≤ 0x7FFF) ∨ (0x8000 ≤ op ∧ op ≤ 0x8FF0) ∨ op = 0x8FF1 ∨ op = 0x8FF2 ∨ op = 0x8FF3 ∨ op = 0x8FF4 ∨ op = 0x8FF6 ∨ op = 0x8FF7 ∨ (0x8FF8 ≤ op ∧ op ≤ 0x8FFE) ∨ op = 0x8FFF ∨ (0x9000 ≤ op ∧ op ≤ 0x9FF0) ∨ (0x9FF1 ≤ op ∧ op ≤ 0x9FFF) ∨ (0xA000 ≤ op ∧ op ≤ 0xAFFF) ∨ (0xB000 ≤ op ∧ op ≤ 0xBFFF) ∨ (0xC000 ≤ op ∧ op ≤ 0xCFFF) ∨ (0xD000 ≤ op ∧ op ≤ 0xDFFF) ∨ (0xE000 ≤ op ∧ op ≤ 0xE09D) ∨ (0xE09E ≤ op ∧ op ≤ 0xEF9E) ∨ (0xEF9F ≤ op ∧ op ≤ 0xEFA1) ∨ (0xEFA2 ≤ op ∧ op ≤ 0xF006) ∨ (0xF007 ≤ op ∧ op ≤ 0xFF07) ∨ (0xFF08 ≤ op ∧ op ≤ 0xFF0A) ∨ (0xFF0B ≤ op ∧ op ≤ 0xFF15) ∨ (0xFF16 ≤ op ∧ op ≤ 0xFF18) ∨ (0xFF19 ≤ op ∧ op ≤ 0xFF1E) ∨ (0xFF1F ≤ op ∧ op ≤ 0xFF29) ∨ (0xFF2A ≤ op ∧ op ≤ 0xFF33) ∨ (0xFF34 ≤ op ∧ op ≤ 0xFF55) ∨ (0xFF56 ≤ op ∧ op ≤ 0xFF65) ∨ 0xFF66 ≤ op) with hr | hr | hr | hr | hr | hr | hr | hr | hr | hr | hr | hr | hr | hr | hr | hr | hr | hr | hr | hr | hr | hr | hr | hr | hr | hr | hr | hr | hr | hr | hr | hr | hr | hr | hr | hr | hr | hr | hr | hr | hr
    · rw [armOf_r00 op hr.1 hr.2] at h
      exact absurd h (by decide)
    · rw [armOf_r01 op hr.ge hr.le] at h
      exact absurd h (by decide)
    · rw [armOf_r02 op hr.1 hr.2] at h
      exact absurd h (by decide)
    · rw [armOf_r03 op hr.ge hr.le] at h
      exact absurd h (by decide)
    · rw [armOf_r04 op hr.1 hr.2] at h
      exact absurd h (by decide)
    · rw [armOf_r05 op hr.1 hr.2] at h
      exact absurd h (by decide)
    · rw [armOf_r06 op hr.1 hr.2] at h
      exact absurd h (by decide)
    · rw [armOf_r07 op hr.1 hr.2] at h
      exact absurd h (by decide)
    · rw [armOf_r08 op hr.1 hr.2] at h
      exact absurd h (by decide)
    · rw [armOf_r09 op hr.1 hr.2] at h
      exact absurd h (by decide)
    · rw [armOf_r10 op hr.1 hr.2] at h
      exact absurd h (by decide)
    · rw [armOf_r11 op hr.1 hr.2] at h
      exact absurd h (by decide)
    · rw [armOf_r12 op hr.1 hr.2] at h
      exact absurd h (by decide)
    · rw [armOf_r13 op hr.ge hr.le] at h
      exact absurd h (by decide)
    · rw [armOf_r14 op hr.ge hr.le] at h
      exact absurd h (by decide)
    · rw [armOf_r15 op hr.ge hr.le] at h
      exact absurd h (by decide)
    · rw [armOf_r16 op hr.ge hr.le] at h
      exact absurd h (by decide)
    · rw [armOf_r18 op hr.ge hr.le] at h
      exact absurd h (by decide)
    · rw [armOf_r19 op hr.ge hr.le] at h
      exact absurd h (by decide)
    · rw [armOf_r20 op hr.1 hr.2] at h
      exact absurd h (by decide)
    · rw [armOf_r21 op hr.ge hr.le] at h
      exact absurd h (by decide)
    · rw [armOf_r22 op hr.1 hr.2] at h
      exact absurd h (by decide)
    · rw [armOf_r23 op hr.1 hr.2] at h
      exact absurd h (by decide)
    · rw [armOf_r24 op hr.1 hr.2] at h
      exact absurd h (by decide)
    · rw [armOf_r25 op hr.1 hr.2] at h
      exact absurd h (by decide)
    · rw [armOf_r26 op hr.1 hr.2] at h
      exact absurd h (by decide)
    · rw [armOf_r27 op hr.1 hr.2] at h
      exact absurd h (by decide)
    · rw [armOf_r28 op hr.1 hr.2] at h
      exact absurd h (by decide)
    · rw [armOf_r29 op hr.1 hr.2] at h
      exact absurd h (by decide)
    · rw [armOf_r30 op hr.1 hr.2] at h
      exact absurd h (by decide)
    · rw [armOf_r31 op hr.1 hr.2] at h
      exact absurd h (by decide)
    · rw [armOf_r32 op hr.1 hr.2] at h
      exact absurd h (by decide)
    · rw [armOf_r33 op hr.1 hr.2] at h
      exact absurd h (by decide)
    · rw [armOf_r34 op hr.1 hr.2] at h
      exact absurd h (by decide)
    · rw [armOf_r35 op hr.1 hr.2] at h
      exact absurd h (by decide)
    · rw [armOf_r36 op hr.1 hr.2] at h
      exact absurd h (by decide)
    · rw [armOf_r37 op hr.1 hr.2] at h
      exact absurd h (by decide)
    · rw [armOf_r38 op hr.1 hr.2] at h
      exact absurd h (by decide)
    · rw [armOf_r39 op hr.1 hr.2] at h
      exact absurd h (by decide)
    · rw [armOf_r40 op hr.1 hr.2] at h
      exact absurd h (by decide)
    · rw [armOf_r41 op hr] at h
      exact absurd h (by decide)
  · intro hb
    exact armOf_r17 op hb.ge hb.le

/-- The SUBN arm is reached by exactly one opcode, 0x8FF7. -/
theorem armOf_subn_iff (op : Nat) : armOf op = Arm.subn ↔ op = 0x8FF7 := by
  constructor
  · intro h
    by_contra hb
    rcases (by omega : (0x0000 ≤ op ∧ op ≤ 0x00DF) ∨ op = 0x00E0 ∨ (0x00E1 ≤ op ∧ op ≤ 0x00ED) ∨ op = 0x00EE ∨ (0x00EF ≤ op ∧ op ≤ 0x0FFF) ∨ (0x1000 ≤ op ∧ op ≤ 0x1FFF) ∨ (0x2000 ≤ op ∧ op ≤ 0x2FFF) ∨ (0x3000 ≤ op ∧ op ≤ 0x3FFF) ∨ (0x4000 ≤ op ∧ op ≤ 0x4FFF) ∨ (0x5000 ≤ op ∧ op ≤ 0x5FFF) ∨ (0x6000 ≤ op ∧ op ≤ 0x6FFF) ∨ (0x7000 ≤ op ∧ op ≤ 0x7FFF) ∨ (0x8000 ≤ op ∧ op ≤ 0x8FF0) ∨ op = 0x8FF1 ∨ op = 0x8FF2 ∨ op = 0x8FF3 ∨ op = 0x8FF4 ∨ op = 0x8FF5 ∨ op = 0x8FF6 ∨ (0x8FF8 ≤ op ∧ op ≤ 0x8FFE) ∨ op = 0x8FFF ∨ (0x9000 ≤ op ∧ op ≤ 0x9FF0) ∨ (0x9FF1 ≤ op ∧ op ≤ 0x9FFF) ∨ (0xA000 ≤ op ∧ op ≤ 0xAFFF) ∨ (0xB000 ≤ op ∧ op ≤ 0xBFFF) ∨ (0xC000 ≤ op ∧ op ≤ 0xCFFF) ∨ (0xD000 ≤ op ∧ op ≤ 0xDFFF) ∨ (0xE000 ≤ op ∧ op ≤ 0xE09D) ∨ (0xE09E ≤ op ∧ op ≤ 0xEF9E) ∨ (0xEF9F ≤ op ∧ op ≤ 0xEFA1) ∨ (0xEFA2 ≤ op ∧ op ≤ 0xF006) ∨ (0xF007 ≤ op ∧ op ≤ 0xFF07) ∨ (0xFF08 ≤ op ∧ op ≤ 0xFF0A) ∨ (0xFF0B ≤ op ∧ op ≤ 0xFF15) ∨ (0xFF16 ≤ op ∧ op ≤ 0xFF18) ∨ (0xFF19 ≤ op ∧ op ≤ 0xFF1E) ∨ (0xFF1F ≤ op ∧ op ≤ 0xFF29) ∨ (0xFF2A ≤ op ∧ op ≤ 0xFF33) ∨ (0xFF34 ≤ op ∧ op ≤ 0xFF55) ∨ (0xFF56 ≤ op ∧ op ≤ 0xFF65) ∨ 0xFF66 ≤ op) with hr | hr | hr | hr | hr | hr | hr | hr | hr | hr | hr | hr | hr | hr | hr | hr | hr | hr | hr | hr | hr | hr | hr | hr | hr | hr | hr | hr | hr | hr | hr | hr | hr | hr | hr | hr | hr | hr | hr | hr | hr
    · rw [armOf_r00 op hr.1 hr.2] at h
      exact absurd h (by decide)
    · rw [armOf_r01 op hr.ge hr.le] at h
      exact absurd h (by decide)
    · rw [armOf_r02 op hr.1 hr.2] at h
      exact absurd h (by decide)
    · rw [armOf_r03 op hr.ge hr.le] at h
      exact absurd h (by decide)
    · rw [armOf_r04 op hr.1 hr.2] at h
      exact absurd h (by decide)
    · rw [armOf_r05 op hr.1 hr.2] at h
      exact absurd h (by decide)
    · rw [armOf_r06 op hr.1 hr.2] at h
      exact absurd h (by decide)
    · rw [armOf_r07 op hr.1 hr.2] at h
      exact absurd h (by decide)
    · rw [armOf_r08 op hr.1 hr.2] at h
      exact absurd h (by decide)
    · rw [armOf_r09 op hr.1 hr.2] at h
      exact absurd h (by decide)
    · rw [armOf_r10 op hr.1 hr.2] at h
      exact absurd h (by decide)
    · rw [armOf_r11 op hr.1 hr.2] at h
      exact absurd h (by decide)
    · rw [armOf_r12 op hr.1 hr.2] at h
      exact absurd h (by decide)
    · rw [armOf_r13 op hr.ge hr.le] at h
      exact absurd h (by decide)
    · rw [armOf_r14 op hr.ge hr.le] at h
      exact absurd h (by decide)
    · rw [armOf_r15 op hr.ge hr.le] at h
      exact absurd h (by decide)
    · rw [armOf_r16 op hr.ge hr.le] at h
      exact absurd h (by decide)
    · rw [armOf_r17 op hr.ge hr.le] at h
      exact absurd h (by decide)
    · rw [armOf_r18 op hr.ge hr.le] at h
      exact absurd h (by decide)
    · rw [armOf_r20 op hr.1 hr.2] at h
      exact absurd h (by decide)
    · rw [armOf_r21 op hr.ge hr.le] at h
      exact absurd h (by decide)
    · rw [armOf_r22 op hr.1 hr.2] at h
      exact absurd h (by decide)
    · rw [armOf_r23 op hr.1 hr.2] at h
      exact absurd h (by decide)
    · rw [armOf_r24 op hr.1 hr.2] at h
      exact absurd h (by decide)
    · rw [armOf_r25 op hr.1 hr.2] at h
      exact absurd h (by decide)
    · rw [armOf_r26 op hr.1 hr.2] at h
      exact absurd h (by decide)
    · rw [armOf_r27 op hr.1 hr.2] at h
      exact absurd h (by decide)
    · rw [armOf_r28 op hr.1 hr.2] at h
      exact absurd h (by decide)
    · rw [armOf_r29 op hr.1 hr.2] at h
      exact absurd h (by decide)
    · rw [armOf_r30 op hr.1 hr.2] at h
      exact absurd h (by decide)
    · rw [armOf_r31 op hr.1 hr.2] at h
      exact absurd h (by decide)
    · rw [armOf_r32 op hr.1 hr.2] at h
      exact absurd h (by decide)
    · rw [armOf_r33 op hr.1 hr.2] at h
      exact absurd h (by decide)
    · rw [armOf_r34 op hr.1 hr.2] at h
      exact absurd h (by decide)
    · rw [armOf_r35 op hr.1 hr.2] at h
      exact absurd h (by decide)
    · rw [armOf_r36 op hr.1 hr.2] at h
      exact absurd h (by decide)
    · rw [armOf_r37 op hr.1 hr.2] at h
      exact absurd h (by decide)
    · rw [armOf_r38 op hr.1 hr.2] at h
      exact absurd h (by decide)
    · rw [armOf_r39 op hr.1 hr.2] at h
      exact absurd h (by decide)
    · rw [armOf_r40 op hr.1 hr.2] at h
      exact absurd h (by decide)
    · rw [armOf_r41 op hr] at h
      exact absurd h (by decide)
  · intro hb
    exact armOf_r19 op hb.ge hb.le

/-- The arithmetic/logic arms are reached exactly on [0x8FF1, 0x8FFE]. -/
theorem isArith_armOf_iff (op : Nat) :
    isArith (armOf op) = true ↔ (0x8FF1 ≤ op ∧ op ≤ 0x8FFE) := by
  constructor
  · intro h
    by_contra hb
    rcases (by omega : (0x0000 ≤ op ∧ op ≤ 0x00DF) ∨ op = 0x00E0 ∨ (0x00E1 ≤ op ∧ op ≤ 0x00ED) ∨ op = 0x00EE ∨ (0x00EF ≤ op ∧ op ≤ 0x0FFF) ∨ (0x1000 ≤ op ∧ op ≤ 0x1FFF) ∨ (0x2000 ≤ op ∧ op ≤ 0x2FFF) ∨ (0x3000 ≤ op ∧ op ≤ 0x3FFF) ∨ (0x4000 ≤ op ∧ op ≤ 0x4FFF) ∨ (0x5000 ≤ op ∧ op ≤ 0x5FFF) ∨ (0x6000 ≤ op ∧ op ≤ 0x6FFF) ∨ (0x7000 ≤ op ∧ op ≤ 0x7FFF) ∨ (0x8000 ≤ op ∧ op ≤ 0x8FF0) ∨ op = 0x8FFF ∨ (0x9000 ≤ op ∧ op ≤ 0x9FF0) ∨ (0x9FF1 ≤ op ∧ op ≤ 0x9FFF) ∨ (0xA000 ≤ op ∧ op ≤ 0xAFFF) ∨ (0xB000 ≤ op ∧ op ≤ 0xBFFF) ∨ (0xC000 ≤ op ∧ op ≤ 0xCFFF) ∨ (0xD000 ≤ op ∧ op ≤ 0xDFFF) ∨ (0xE000 ≤ op ∧ op ≤ 0xE09D) ∨ (0xE09E ≤ op ∧ op ≤ 0xEF9E) ∨ (0xEF9F ≤ op ∧ op ≤ 0xEFA1) ∨ (0xEFA2 ≤ op ∧ op ≤ 0xF006) ∨ (0xF007 ≤ op ∧ op ≤ 0xFF07) ∨ (0xFF08 ≤ op ∧ op ≤ 0xFF0A) ∨ (0xFF0B ≤ op ∧ op ≤ 0xFF15) ∨ (0xFF16 ≤ op ∧ op ≤ 0xFF18) ∨ (0xFF19 ≤ op ∧ op ≤ 0xFF1E) ∨ (0xFF1F ≤ op ∧ op ≤ 0xFF29) ∨ (0xFF2A ≤ op ∧ op ≤ 0xFF33) ∨ (0xFF34 ≤ op ∧ op ≤ 0xFF55) ∨ (0xFF56 ≤ op ∧ op ≤ 0xFF65) ∨ 0xFF66 ≤ op) with hr | hr | hr | hr | hr | hr | hr | hr | hr | hr | hr | hr | hr | hr | hr | hr | hr | hr | hr | hr | hr | hr | hr | hr | hr | hr | hr | hr | hr | hr | hr | hr | hr | hr
    · rw [armOf_r00 op hr.1 hr.2] at h
      exact absurd h (by decide)
    · rw [armOf_r01 op hr.ge hr.le] at h
      exact absurd h (by decide)
    · rw [armOf_r02 op hr.1 hr.2] at h
      exact absurd h (by decide)
    · rw [armOf_r03 op hr.ge hr.le] at h
      exact absurd h (by decide)
    · rw [armOf_r04 op hr.1 hr.2] at h
      exact absurd h (by decide)
    · rw [armOf_r05 op hr.1 hr.2] at h
      exact absurd h (by decide)
    · rw [armOf_r06 op hr.1 hr.2] at h
      exact absurd h (by decide)
    · rw [armOf_r07 op hr.1 hr.2] at h
      exact absurd h (by decide)
    · rw [armOf_r08 op hr.1 hr.2] at h
      exact absurd h (by decide)
    · rw [armOf_r09 op hr.1 hr.2] at h
      exact absurd h (by decide)
    · rw [armOf_r10 op hr.1 hr.2] at h
      exact absurd h (by decide)
    · rw [armOf_r11 op hr.1 hr.2] at h
      exact absurd h (by decide)
    · rw [armOf_r12 op hr.1 hr.2] at h
      exact absurd h (by decide)
    · rw [armOf_r21 op hr.ge hr.le] at h
      exact absurd h (by decide)
    · rw [armOf_r22 op hr.1 hr.2] at h
      exact absurd h (by decide)
    · rw [armOf_r23 op hr.1 hr.2] at h
      exact absurd h (by decide)
    · rw [armOf_r24 op hr.1 hr.2] at h
      exact absurd h (by decide)
    · rw [armOf_r25 op hr.1 hr.2] at h
      exact absurd h (by decide)
    · rw [armOf_r26 op hr.1 hr.2] at h
      exact absurd h (by decide)
    · rw [armOf_r27 op hr.1 hr.2] at h
      exact absurd h (by decide)
    · rw [armOf_r28 op hr.1 hr.2] at h
      exact absurd h (by decide)
    · rw [armOf_r29 op hr.1 hr.2] at h
      exact absurd h (by decide)
    · rw [armOf_r30 op hr.1 hr.2] at h
      exact absurd h (by decide)
    · rw [armOf_r31 op hr.1 hr.2] at h
      exact absurd h (by decide)
    · rw [armOf_r32 op hr.1 hr.2] at h
      exact absurd h (by decide)
    · rw [armOf_r33 op hr.1 hr.2] at h
      exact absurd h (by decide)
    · rw [armOf_r34 op hr.1 hr.2] at h
      exact absurd h (by decide)
    · rw [armOf_r35 op hr.1 hr.2] at h
      exact absurd h (by decide)
    · rw [armOf_r36 op hr.1 hr.2] at h
      exact absurd h (by decide)
    · rw [armOf_r37 op hr.1 hr.2] at h
      exact absurd h (by decide)
    · rw [armOf_r38 op hr.1 hr.2] at h
      exact absurd h (by decide)
    · rw [armOf_r39 op hr.1 hr.2] at h
      exact absurd h (by decide)
    · rw [armOf_r40 op hr.1 hr.2] at h
      exact absurd h (by decide)
    · rw [armOf_r41 op hr] at h
      exact absurd h (by decide)
  · intro hb
    rcases (by omega : op = 0x8FF1 ∨ op = 0x8FF2 ∨ op = 0x8FF3 ∨ op = 0x8FF4 ∨ op = 0x8FF5 ∨ op = 0x8FF6 ∨ op = 0x8FF7 ∨ (0x8FF8 ≤ op ∧ op ≤ 0x8FFE)) with hr | hr | hr | hr | hr | hr | hr | hr
    · rw [armOf_r13 op hr.ge hr.le]; rfl
    · rw [armOf_r14 op hr.ge hr.le]; rfl
    · rw [armOf_r15 op hr.ge hr.le]; rfl
    · rw [armOf_r16 op hr.ge hr.le]; rfl
    · rw [armOf_r17 op hr.ge hr.le]; rfl
    · rw [armOf_r18 op hr.ge hr.le]; rfl
    · rw [armOf_r19 op hr.ge hr.le]; rfl
    · rw [armOf_r20 op hr.1 hr.2]; rfl

/-- The post-`Fx07` F arms are reached exactly on [0xFF08, 0xFF65]. -/
theorem isLateF_armOf_iff (op : Nat) :
    isLateF (armOf op) = true ↔ (0xFF08 ≤ op ∧ op ≤ 0xFF65) := by
  constructor
  · intro h
    by_contra hb
    rcases (by omega : (0x0000 ≤ op ∧ op ≤ 0x00DF) ∨ op = 0x00E0 ∨ (0x00E1 ≤ op ∧ op ≤ 0x00ED) ∨ op = 0x00EE ∨ (0x00EF ≤ op ∧ op ≤ 0x0FFF) ∨ (0x1000 ≤ op ∧ op ≤ 0x1FFF) ∨ (0x2000 ≤ op ∧ op ≤ 0x2FFF) ∨ (0x3000 ≤ op ∧ op ≤ 0x3FFF) ∨ (0x4000 ≤ op ∧ op ≤ 0x4FFF) ∨ (0x5000 ≤ op ∧ op ≤ 0x5FFF) ∨ (0x6000 ≤ op ∧ op ≤ 0x6FFF) ∨ (0x7000 ≤ op ∧ op ≤ 0x7FFF) ∨ (0x8000 ≤ op ∧ op ≤ 0x8FF0) ∨ op = 0x8FF1 ∨ op = 0x8FF2 ∨ op = 0x8FF3 ∨ op = 0x8FF4 ∨ op = 0x8FF5 ∨ op = 0x8FF6 ∨ op = 0x8FF7 ∨ (0x8FF8 ≤ op ∧ op ≤ 0x8FFE) ∨ op = 0x8FFF ∨ (0x9000 ≤ op ∧ op ≤ 0x9FF0) ∨ (0x9FF1 ≤ op ∧ op ≤ 0x9FFF) ∨ (0xA000 ≤ op ∧ op ≤ 0xAFFF) ∨ (0xB000 ≤ op ∧ op ≤ 0xBFFF) ∨ (0xC000 ≤ op ∧ op ≤ 0xCFFF) ∨ (0xD000 ≤ op ∧ op ≤ 0xDFFF) ∨ (0xE000 ≤ op ∧ op ≤ 0xE09D) ∨ (0xE09E ≤ op ∧ op ≤ 0xEF9E) ∨ (0xEF9F ≤ op ∧ op ≤ 0xEFA1) ∨ (0xEFA2 ≤ op ∧ op ≤ 0xF006) ∨ (0xF007 ≤ op ∧ op ≤ 0xFF07) ∨ 0xFF66 ≤ op) with hr | hr | hr | hr | hr | hr | hr | hr | hr | hr | hr | hr | hr | hr | hr | hr | hr | hr | hr | hr | hr | hr | hr | hr | hr | hr | hr | hr | hr | hr | hr | hr | hr | hr
    · rw [armOf_r00 op hr.1 hr.2] at h
      exact absurd h (by decide)
    · rw [armOf_r01 op hr.ge hr.le] at h
      exact absurd h (by decide)
    · rw [armOf_r02 op hr.1 hr.2] at h
      exact absurd h (by decide)
    · rw [armOf_r03 op hr.ge hr.le] at h
      exact absurd h (by decide)
    · rw [armOf_r04 op hr.1 hr.2] at h
      exact absurd h (by decide)
    · rw [armOf_r05 op hr.1 hr.2] at h
      exact absurd h (by decide)
    · rw [armOf_r06 op hr.1 hr.2] at h
      exact absurd h (by decide)
    · rw [armOf_r07 op hr.1 hr.2] at h
      exact absurd h (by decide)
    · rw [armOf_r08 op hr.1 hr.2] at h
      exact absurd h (by decide)
    · rw [armOf_r09 op hr.1 hr.2] at h
      exact absurd h (by decide)
    · rw [armOf_r10 op hr.1 hr.2] at h
      exact absurd h (by decide)
    · rw [armOf_r11 op hr.1 hr.2] at h
      exact absurd h (by decide)
    · rw [armOf_r12 op hr.1 hr.2] at h
      exact absurd h (by decide)
    · rw [armOf_r13 op hr.ge hr.le] at h
      exact absurd h (by decide)
    · rw [armOf_r14 op hr.ge hr.le] at h
      exact absurd h (by decide)
    · rw [armOf_r15 op hr.ge hr.le] at h
      exact absurd h (by decide)
    · rw [armOf_r16 op hr.ge hr.le] at h
      exact absurd h (by decide)
    · rw [armOf_r17 op hr.ge hr.le] at h
      exact absurd h (by decide)
    · rw [armOf_r18 op hr.ge hr.le] at h
      exact absurd h (by decide)
    · rw [armOf_r19 op hr.ge hr.le] at h
      exact absurd h (by decide)
    · rw [armOf_r20 op hr.1 hr.2] at h
      exact absurd h (by decide)
    · rw [armOf_r21 op hr.ge hr.le] at h
      exact absurd h (by decide)
    · rw [armOf_r22 op hr.1 hr.2] at h
      exact absurd h (by decide)
    · rw [armOf_r23 op hr.1 hr.2] at h
      exact absurd h (by decide)
    · rw [armOf_r24 op hr.1 hr.2] at h
      exact absurd h (by decide)
    · rw [armOf_r25 op hr.1 hr.2] at h
      exact absurd h (by decide)
    · rw [armOf_r26 op hr.1 hr.2] at h
      exact absurd h (by decide)
    · rw [armOf_r27 op hr.1 hr.2] at h
      exact absurd h (by decide)
    · rw [armOf_r28 op hr.1 hr.2] at h
      exact absurd h (by decide)
    · rw [armOf_r29 op hr.1 hr.2] at h
      exact absurd h (by decide)
    · rw [armOf_r30 op hr.1 hr.2] at h
      exact absurd h (by decide)
    · rw [armOf_r31 op hr.1 hr.2] at h
      exact absurd h (by decide)
    · rw [armOf_r32 op hr.1 hr.2] at h
      exact absurd h (by decide)
    · rw [armOf_r41 op hr] at h
      exact absurd h (by decide)
  · intro hb
    rcases (by omega : (0xFF08 ≤ op ∧ op ≤ 0xFF0A) ∨ (0xFF0B ≤ op ∧ op ≤ 0xFF15) ∨ (0xFF16 ≤ op ∧ op ≤ 0xFF18) ∨ (0xFF19 ≤ op ∧ op ≤ 0xFF1E) ∨ (0xFF1F ≤ op ∧ op ≤ 0xFF29) ∨ (0xFF2A ≤ op ∧ op ≤ 0xFF33) ∨ (0xFF34 ≤ op ∧ op ≤ 0xFF55) ∨ (0xFF56 ≤ op ∧ op ≤ 0xFF65)) with hr | hr | hr | hr | hr | hr | hr | hr
    · rw [armOf_r33 op hr.1 hr.2]; rfl
    · rw [armOf_r34 op hr.1 hr.2]; rfl
    · rw [armOf_r35 op hr.1 hr.2]; rfl
    · rw [armOf_r36 op hr.1 hr.2]; rfl
    · rw [armOf_r37 op hr.1 hr.2]; rfl
    · rw [armOf_r38 op hr.1 hr.2]; rfl
    · rw [armOf_r39 op hr.1 hr.2]; rfl
    · rw [armOf_r40 op hr.1 hr.2]; rfl


/-! ### Register-file and arm-body lemmas -/


theorem writeV_self (v : Nat → Nat) (x a : Nat) : writeV v x a x = a := by
  simp [writeV]

theorem writeV_ne (v : Nat → Nat) (x a j : Nat) (h : j ≠ x) :
    writeV v x a j = v j := by
  simp [writeV, h]

theorem writeV_writeV (v : Nat → Nat) (x a b : Nat) :
    writeV (writeV v x a) x b = writeV v x b := by
  funext j
  simp only [writeV]
  split_ifs <;> rfl

theorem wrapSub8_self (a : Nat) : wrapSub8 a a = 0 := by
  unfold wrapSub8; omega

theorem exbind_ok {α β : Type} (a : α) (f : α → Except Err β) :
    ((Except.ok a : Except Err α) >>= f) = f a := rfl

theorem exbind_error {α β : Type} (e : Err) (f : α → Except Err β) :
    ((Except.error e : Except Err α) >>= f) = Except.error e := rfl

theorem exceptBindOk {α β : Type} {mx : Except Err α} {f : α → Except Err β}
    {y : β} (h : (mx >>= f) = .ok y) : ∃ a, mx = .ok a ∧ f a = .ok y := by
  cases mx with
  | ok a => exact ⟨a, rfl, h⟩
  | error e => rw [exbind_error] at h; exact absurd h (by simp)

/-- Any opcode of the first `0x8...` arm's range performs `Vx ← Vy`. -/
theorem process_ld_reg (m : Machine) (op : Nat)
    (h1 : 0x8000 ≤ op) (h2 : op ≤ 0x8FF0) :
    process_opcode m op =
      .ok { m with v := writeV m.v (Nat.land op 0x0F00 >>> 8)
                          (m.v (Nat.land op 0x00F0 >>> 4)) } := by
  unfold process_opcode
  rw [armOf_r12 op h1 h2]
  rfl

/-- Any opcode of the first `0xF...` arm's range performs `Vx ← DT`. -/
theorem process_ld_dt (m : Machine) (op : Nat)
    (h1 : 0xF007 ≤ op) (h2 : op ≤ 0xFF07) :
    process_opcode m op =
      .ok { m with v := writeV m.v (Nat.land op 0x0F00 >>> 8) m.dt } := by
  unfold process_opcode
  rw [armOf_r32 op h1 h2]
  rfl

/-- The SUB arm body: VF gets the strict comparison flag, Vx the wrapping
difference (when `x ≠ 0xF`, so the result write does not clobber the flag). -/
theorem applyArm_sub_reg (m : Machine) (op : Nat) (m' : Machine)
    (h : applyArm .sub_reg m op = .ok m')
    (hx : Nat.land op 0x0F00 >>> 8 ≠ 15) :
    m'.v 15 = (if m.v (Nat.land op 0x0F00 >>> 8) > m.v (Nat.land op 0x00F0 >>> 4)
               then 1 else 0)
    ∧ m'.v (Nat.land op 0x0F00 >>> 8) =
        wrapSub8 (m.v (Nat.land op 0x0F00 >>> 8)) (m.v (Nat.land op 0x00F0 >>> 4)) := by
  simp only [applyArm] at h
  injection h with h2
  subst h2
  constructor
  · show writeV (writeV m.v 15 _) _ _ 15 = _
    rw [writeV_ne _ _ _ _ (Ne.symm hx), writeV_self]
  · show writeV (writeV m.v 15 _) _ _ _ = _
    rw [writeV_self]

/-- The SUBN arm body, `x ≠ 0xF`. -/
theorem applyArm_subn (m : Machine) (op : Nat) (m' : Machine)
    (h : applyArm .subn m op = .ok m')
    (hx : Nat.land op 0x0F00 >>> 8 ≠ 15) :
    m'.v 15 = (if m.v (Nat.land op 0x00F0 >>> 4) > m.v (Nat.land op 0x0F00 >>> 8)
               then 1 else 0)
    ∧ m'.v (Nat.land op 0x0F00 >>> 8) =
        wrapSub8 (m.v (Nat.land op 0x00F0 >>> 4)) (m.v (Nat.land op 0x0F00 >>> 8)) := by
  simp only [applyArm] at h
  injection h with h2
  subst h2
  constructor
  · show writeV (writeV m.v 15 _) _ _ 15 = _
    rw [writeV_ne _ _ _ _ (Ne.symm hx), writeV_self]
  · show writeV (writeV m.v 15 _) _ _ _ = _
    rw [writeV_self]

/-- The only opcode the SUB arm ever sees is `0x8FF5`, whose operands both
alias `VF`: the flag write is the strict test `VF > VF` (never 1) and the
stored difference is 0, so `VF` ends at 0 and nothing else changes. -/
theorem process_sub_aliased (m : Machine) :
    process_opcode m 0x8FF5 = .ok { m with v := writeV m.v 15 0 } := by
  have ha : armOf 0x8FF5 = Arm.sub_reg := by decide
  unfold process_opcode
  rw [ha]
  simp only [applyArm]
  have hx : Nat.land 0x8FF5 0x0F00 >>> 8 = 15 := by decide
  have hy : Nat.land 0x8FF5 0x00F0 >>> 4 = 15 := by decide
  rw [hx, hy, if_neg (lt_irrefl (m.v 15)), wrapSub8_self, writeV_writeV]

/-- Same for SUBN and `0x8FF7`. -/
theorem process_subn_aliased (m : Machine) :
    process_opcode m 0x8FF7 = .ok { m with v := writeV m.v 15 0 } := by
  have ha : armOf 0x8FF7 = Arm.subn := by decide
  unfold process_opcode
  rw [ha]
  simp only [applyArm]
  have hx : Nat.land 0x8FF7 0x0F00 >>> 8 = 15 := by decide
  have hy : Nat.land 0x8FF7 0x00F0 >>> 4 = 15 := by decide
  rw [hx, hy, if_neg (lt_irrefl (m.v 15)), wrapSub8_self, writeV_writeV]

/-- A successful arm execution keeps the stack pointer within the 16-entry
stack: only the call arm raises it, and only having passed the bounds guard
of `stack[sp]`. -/
theorem applyArm_sp_le (a : Arm) (m : Machine) (op : Nat) (m' : Machine)
    (h : applyArm a m op = .ok m') (hsp : m.sp ≤ 15) : m'.sp ≤ 15 := by
  cases a <;>
    (try simp only [applyArm, addU16, addU8, subU8, readStack, writeStack,
      readMem, writeMem] at h) <;>
    (try obtain ⟨w1, hw1, h⟩ := exceptBindOk h) <;>
    (try split_ifs at h) <;>
    (try simp only [exbind_ok, exbind_error] at h) <;>
    first
      | (injection h with h2; subst h2; first | exact hsp | (simp; omega))
      | injection h

/-- A successful cycle keeps the stack pointer within the stack. -/
theorem execute_cycle_sp_le (m m' : Machine) (h : execute_cycle m = .ok m')
    (hsp : m.sp ≤ 15) : m'.sp ≤ 15 := by
  unfold execute_cycle at h
  obtain ⟨opcode, hop, h⟩ := exceptBindOk h
  obtain ⟨pc', hpc, h⟩ := exceptBindOk h
  exact applyArm_sp_le _ _ _ _ h hsp

/-- Any number of successful cycles keeps the stack pointer within the
stack. -/
theorem cycles_sp_le (n : Nat) : ∀ (m m' : Machine),
    cycles n m = .ok m' → m.sp ≤ 15 → m'.sp ≤ 15 := by
  induction n with
  | zero =>
      intro m m' h hsp
      injection h with h2
      subst h2
      exact hsp
  | succ k ih =>
      intro m m' h hsp
      unfold cycles at h
      obtain ⟨m1, h1, h⟩ := exceptBindOk h
      exact ih m1 m' h (execute_cycle_sp_le m m1 h1 hsp)

/-- A `2nnn` call at `sp = 15` dies indexing `stack[16]`. -/
theorem process_call_overflow (m : Machine) (op : Nat) (hsp : m.sp = 15)
    (h1 : 0x2000 ≤ op) (h2 : op ≤ 0x2FFF) :
    process_opcode m op = .error (.stackIndex 16) := by
  unfold process_opcode
  rw [armOf_r06 op h1 h2]
  simp only [applyArm, addU8, writeStack, hsp]
  rfl

/-- A `00EE` return at `sp = 0` dies on the `u8` underflow `sp -= 1`. -/
theorem process_ret_underflow (m : Machine) (hsp : m.sp = 0) :
    process_opcode m 0x00EE = .error .spUnderflow := by
  have ha : armOf 0x00EE = Arm.ret := by decide
  unfold process_opcode
  rw [ha]
  simp only [applyArm, readStack, subU8, hsp]
  rfl

/-- C7: a call pushes the already-advanced `pc` (the address of the
instruction after the call, since `execute_cycle` advances `pc` before
`process_opcode` runs) at `stack[sp + 1]`, and a later `00EE` executed with
the same stack and stack pointer restores exactly that `pc` and the
original `sp` — for every starting stack pointer that lets the call
succeed (`sp + 1 < 16`). -/
theorem C7_call_ret_roundtrip (m : Machine) (op : Nat)
    (h1 : 0x2000 ≤ op) (h2 : op ≤ 0x2FFF) (hsp : m.sp + 1 < 16) :
    ∃ m1, process_opcode m op = .ok m1
      ∧ m1.pc = Nat.land op 0x0FFF
      ∧ m1.sp = m.sp + 1
      ∧ m1.stack m1.sp = m.pc
      ∧ ∀ m2, m2.sp = m1.sp → m2.stack = m1.stack →
          ∃ m3, process_opcode m2 0x00EE = .ok m3 ∧ m3.pc = m.pc ∧ m3.sp = m.sp := by
  have ha : armOf op = Arm.call := armOf_r06 op h1 h2
  have haret : armOf 0x00EE = Arm.ret := by decide
  refine ⟨{ m with
      sp := m.sp + 1
      stack := fun j => if j = m.sp + 1 then m.pc else m.stack j
      pc := Nat.land op 0x0FFF }, ?_, rfl, rfl, by simp, ?_⟩
  · unfold process_opcode
    rw [ha]
    simp only [applyArm, addU8, writeStack]
    rw [if_pos (by omega : m.sp + 1 ≤ 0xFF), exbind_ok,
        if_pos (by omega : m.sp + 1 < 16), exbind_ok]
  · intro m2 hs2 hst2
    have hs2b : m2.sp = m.sp + 1 := hs2
    refine ⟨{ m2 with pc := m2.stack m2.sp, sp := m2.sp - 1 }, ?_, ?_, ?_⟩
    · unfold process_opcode
      rw [haret]
      simp only [applyArm, readStack, subU8]
      rw [if_pos (by omega : m2.sp < 16), exbind_ok,
          if_pos (by omega : 1 ≤ m2.sp), exbind_ok]
    · show m2.stack m2.sp = m.pc
      rw [hst2, hs2]
      simp
    · show m2.sp - 1 = m.sp
      omega


/-! ### The claims -/


/-- C1: the ROM `60 0A 61 05 80 14 00 00` does NOT leave `V0 = 0x0F`: the
third opcode `0x8014` is caught by the `0x8000...0x8FF0` range arm (LD
Vx,Vy), so `V0` becomes `V1 = 5`; the fourth fetch (opcode 0) is the
unknown-opcode fatal error, as the claim says. -/
theorem C1_rom_scenario :
    vAfter (cycles 3 machAddDemo) 0 = some 5
    ∧ vAfter (cycles 3 machAddDemo) 15 = some 0
    ∧ cycles 4 machAddDemo = .error (.unknownOpcode 0) := ⟨rfl, rfl, rfl⟩

/-- C2: executing `D011` with `V0 = 7`, `V1 = 9` draws at the nibble
coordinates (0, 1) — device cell (0, 5) is toggled while the blocks at the
claimed location (V0, V1) = (7, 9) are untouched — and although
`Display::draw` reports a collision on the all-lit buffer, `VF` stays 0
because the returned flag is discarded. -/
theorem C2_drw_discards_collision :
    vAfter (execute_cycle machDrw) 15 = some 0
    ∧ bufAfter (execute_cycle machDrw) 0 5 = some 14
    ∧ bufAfter (execute_cycle machDrw) 35 45 = some 1
    ∧ (draw machDrw.buf 0 1 [0x80] 15).2 = true := ⟨rfl, rfl, rfl, rfl⟩

/-- C3: `0x8014` with `V0 = 10`, `V1 = 5` performs `V0 ← V1` (result 5,
VF untouched) instead of the claimed ADD; and the only opcode reaching the
ADD arm, `0x8FF4` with `VF = 200`, yields `VF = 2` (carry written first,
then `VF = VF + VF` on the clobbered value), not `(200+200) mod 256`. -/
theorem C3_add_dispatch :
    vAfter (process_opcode machAdd1 0x8014) 0 = some 5
    ∧ vAfter (process_opcode machAdd1 0x8014) 15 = some 0
    ∧ vAfter (process_opcode machAddAlias 0x8FF4) 15 = some 2 := ⟨rfl, rfl, rfl⟩

/-- C4 counterexample: on `0x8FF5` both operands are `VF = 5`; minuend
equals subtrahend, so the claim demands `VF = 1` (no borrow), but the
machine leaves `VF = 0`. -/
theorem C4_counterexample :
    vAfter (process_opcode machSubEq 0x8FF5) 15 = some 0 := rfl

/-- C4 amended: the SUB/SUBN arms are reached only by `0x8FF5`/`0x8FF7`;
their bodies set VF to 1 exactly when the minuend is STRICTLY greater
(0 on equality) and store the 8-bit wrapping difference; for the two
reachable encodings both operands alias VF, so VF simply becomes 0. -/
theorem C4_sub_semantics :
    (∀ op : Nat, (armOf op = Arm.sub_reg ↔ op = 0x8FF5)
      ∧ (armOf op = Arm.subn ↔ op = 0x8FF7))
    ∧ (∀ (m : Machine) (op : Nat) (m' : Machine),
        applyArm .sub_reg m op = .ok m' → Nat.land op 0x0F00 >>> 8 ≠ 15 →
        m'.v 15 = (if m.v (Nat.land op 0x0F00 >>> 8) > m.v (Nat.land op 0x00F0 >>> 4)
                   then 1 else 0)
        ∧ m'.v (Nat.land op 0x0F00 >>> 8) =
            wrapSub8 (m.v (Nat.land op 0x0F00 >>> 8)) (m.v (Nat.land op 0x00F0 >>> 4)))
    ∧ (∀ (m : Machine) (op : Nat) (m' : Machine),
        applyArm .subn m op = .ok m' → Nat.land op 0x0F00 >>> 8 ≠ 15 →
        m'.v 15 = (if m.v (Nat.land op 0x00F0 >>> 4) > m.v (Nat.land op 0x0F00 >>> 8)
                   then 1 else 0)
        ∧ m'.v (Nat.land op 0x0F00 >>> 8) =
            wrapSub8 (m.v (Nat.land op 0x00F0 >>> 4)) (m.v (Nat.land op 0x0F00 >>> 8)))
    ∧ (∀ m : Machine, process_opcode m 0x8FF5 = .ok { m with v := writeV m.v 15 0 })
    ∧ (∀ m : Machine, process_opcode m 0x8FF7 = .ok { m with v := writeV m.v 15 0 }) :=
  ⟨fun op => ⟨armOf_sub_reg_iff op, armOf_subn_iff op⟩,
   applyArm_sub_reg, applyArm_subn, process_sub_aliased, process_subn_aliased⟩

/-- C4 witness: the amended theorem at `op = 0x8015` (arm body, V0 = 10,
V1 = 5: flag 1, result 5) and at the dispatched `0x8FF5`. -/
theorem C4_sub_semantics_witness :
    (armOf 0x8015 = Arm.sub_reg ↔ 0x8015 = 0x8FF5)
    ∧ (∃ m', applyArm .sub_reg machAdd1 0x8015 = .ok m'
        ∧ m'.v 15 = 1 ∧ m'.v 0 = 5)
    ∧ process_opcode machSubEq 0x8FF5 =
        .ok { machSubEq with v := writeV machSubEq.v 15 0 } := by
  refine ⟨(C4_sub_semantics.1 0x8015).1, ⟨_, rfl, ?_, ?_⟩,
          C4_sub_semantics.2.2.2.1 machSubEq⟩
  · exact (C4_sub_semantics.2.1 machAdd1 0x8015 _ rfl (by decide)).1
  · exact (C4_sub_semantics.2.1 machAdd1 0x8015 _ rfl (by decide)).2

/-- C5 counterexample: the call-chain ROM reaches `sp = 15` after fifteen
calls and the SIXTEENTH call is already the fatal `stack[16]` access, so
only 15 levels of nesting are usable, not 16. -/
theorem C5_counterexample :
    spAfter (cycles 15 machCallChain) = some 15
    ∧ cycles 16 machCallChain = .error (.stackIndex 16) := ⟨rfl, rfl⟩

/-- C5 amended: from reset, `sp` never exceeds 15 in any reachable state; a
`2nnn` at `sp = 15` is the fatal stack-index error (so the 16th nested call
dies and slot 0 is never used), and `00EE` at `sp = 0` is the fatal `u8`
underflow. -/
theorem C5_stack_invariant :
    (∀ (rom : Nat → Nat) (k : Keyboard) (w : Buffer) (c r n : Nat)
        (m' : Machine), cycles n (resetMachine rom k w c r) = .ok m' →
        m'.sp ≤ 15)
    ∧ (∀ (m : Machine) (op : Nat), m.sp = 15 → 0x2000 ≤ op → op ≤ 0x2FFF →
        process_opcode m op = .error (.stackIndex 16))
    ∧ (∀ m : Machine, m.sp = 0 →
        process_opcode m 0x00EE = .error .spUnderflow) :=
  ⟨fun rom k w c r n m' h => cycles_sp_le n _ m' h (by show (0:Nat) ≤ 15; omega),
   process_call_overflow, process_ret_underflow⟩

/-- C5 witness: the invariant after the fifteen successful calls of the
chain ROM, the overflow at `sp = 15`, and the underflow at `sp = 0`. -/
theorem C5_stack_invariant_witness :
    (∃ m', cycles 15 machCallChain = .ok m' ∧ m'.sp ≤ 15)
    ∧ process_opcode machSpFull 0x2345 = .error (.stackIndex 16)
    ∧ process_opcode machAddDemo 0x00EE = .error .spUnderflow :=
  ⟨⟨_, rfl, C5_stack_invariant.1 romCallChain kbdOff bufZero 15 0 15 _ rfl⟩,
   C5_stack_invariant.2.1 machSpFull 0x2345 rfl (by decide) (by decide),
   C5_stack_invariant.2.2 machAddDemo rfl⟩

/-- C6: `0xF033` (x = 0) with `V0 = 157` is caught by the
`0xF007...0xFF07` range arm (`Vx ← DT`), so `V0` becomes 0 and no memory
is written; only the `x = F` encoding `0xFF33` reaches the BCD arm, which
then writes 1, 5, 7 at `I`, `I+1`, `I+2` as the claim describes. -/
theorem C6_bcd_dispatch :
    vAfter (process_opcode machBcd 0xF033) 0 = some 0
    ∧ memAfter (process_opcode machBcd 0xF033) 0x300 = some 0
    ∧ memAfter (process_opcode machBcdF 0xFF33) 0x300 = some 1
    ∧ memAfter (process_opcode machBcdF 0xFF33) 0x301 = some 5
    ∧ memAfter (process_opcode machBcdF 0xFF33) 0x302 = some 7 :=
  ⟨rfl, rfl, rfl, rfl, rfl⟩

/-- C7 witness: the round trip at `sp = 3`, opcode `0x2345`. -/
theorem C7_call_ret_roundtrip_witness :
    ∃ m1 m3, process_opcode machCall7 0x2345 = .ok m1
      ∧ process_opcode m1 0x00EE = .ok m3
      ∧ m3.pc = machCall7.pc ∧ m3.sp = machCall7.sp := by
  obtain ⟨m1, hp, hpc, hsp, hst, hret⟩ :=
    C7_call_ret_roundtrip machCall7 0x2345 (by decide) (by decide) (by decide)
  obtain ⟨m3, hp3, hpc3, hsp3⟩ := hret m1 rfl rfl
  exact ⟨m1, m3, hp, hp3, hpc3, hsp3⟩

/-- C8 counterexample: sprite `0x80` (one set pixel) drawn twice at (0, 0)
with color byte 15 on a buffer whose covered block already holds 15: the
first draw zeroes the block, so the second draw reads only zeros and
reports `collision = false` even though the sprite has a set pixel. -/
theorem C8_counterexample :
    spriteCells 0 0 [0x80] = [(0, 0)]
    ∧ (draw (draw bufBlock 0 0 [0x80] 15).1 0 0 [0x80] 15).2 = false :=
  ⟨rfl, rfl⟩

/-- C8 amended: drawing the same sprite twice at the same spot always
restores the buffer exactly (XOR self-inverse); the second draw reports a
collision whenever some device cell it touches is nonzero after the first
draw (in particular, starting from a cleared display with a nonzero color
byte) — but not unconditionally wherever the sprite had set pixels. -/
theorem C8_redraw (w : Buffer) (x y : Nat) (sprite : List Nat) (c : Nat) :
    (draw (draw w x y sprite c).1 x y sprite c).1 = w
    ∧ (∀ p ∈ drawOps x y sprite,
        (draw w x y sprite c).1 p.1 p.2 ≠ 0 →
        (draw (draw w x y sprite c).1 x y sprite c).2 = true) := by
  have h1 : (draw w x y sprite c).1 = applyXors c (drawOps x y sprite) w := by
    rw [draw_eq_ops, stepCell_foldl_fst]
  constructor
  · rw [draw_eq_ops, stepCell_foldl_fst, h1, applyXors_applyXors]
  · intro p hmem hnz
    rw [draw_eq_ops]
    exact stepCell_foldl_collision c _ _ _ p hmem hnz

/-- C8 witness: on the cleared buffer with color byte 15, the redraw of
sprite `0x80` at (0, 0) restores the buffer and the second draw reports a
collision (cell (0, 0) holds 15 after the first draw). -/
theorem C8_redraw_witness :
    (draw (draw bufZero 0 0 [0x80] 15).1 0 0 [0x80] 15).1 = bufZero
    ∧ (draw (draw bufZero 0 0 [0x80] 15).1 0 0 [0x80] 15).2 = true := by
  refine ⟨(C8_redraw bufZero 0 0 [0x80] 15).1, ?_⟩
  exact (C8_redraw bufZero 0 0 [0x80] 15).2 (0, 0) (by decide) (by decide)

/-- C9 amended: every opcode in [0x8000, 0x8FF0] executes the `8xy0`
effect `Vx ← Vy` regardless of its low nibble, and the OR/AND/XOR/ADD/SUB/
SHR/SUBN/SHL arms are reached exactly by the opcodes in
[0x8FF1, 0x8FFE] — fourteen of them, not fifteen. -/
theorem C9_range_dispatch :
    (∀ (m : Machine) (op : Nat), 0x8000 ≤ op → op ≤ 0x8FF0 →
        process_opcode m op =
          .ok { m with v := writeV m.v (Nat.land op 0x0F00 >>> 8)
                              (m.v (Nat.land op 0x00F0 >>> 4)) })
    ∧ (∀ op : Nat, isArith (armOf op) = true ↔ (0x8FF1 ≤ op ∧ op ≤ 0x8FFE)) :=
  ⟨process_ld_reg, isArith_armOf_iff⟩

/-- C9 witness: `0x8014` (an `8xy4`-shaped opcode) executes `V0 ← V1`,
and `0x8FF4` does reach an arithmetic arm. -/
theorem C9_range_dispatch_witness :
    process_opcode machAdd1 0x8014 =
      .ok { machAdd1 with v := writeV machAdd1.v 0 (machAdd1.v 1) }
    ∧ isArith (armOf 0x8FF4) = true :=
  ⟨C9_range_dispatch.1 machAdd1 0x8014 (by decide) (by decide),
   (C9_range_dispatch.2 0x8FF4).mpr (by decide)⟩

/-- C9 counterexample: the span `0x8FF1 .. 0x8FFE` the claim calls
"fifteen opcodes" holds exactly fourteen, all of which dispatch to the
arithmetic arms, while its two neighbours do not. -/
theorem C9_counterexample :
    ((List.range' 0x8FF1 14).filter fun op => isArith (armOf op)).length = 14
    ∧ isArith (armOf 0x8FF0) = false
    ∧ isArith (armOf 0x8FFF) = false := ⟨rfl, rfl, rfl⟩

/-- C10 amended: every opcode in [0xF007, 0xFF07] executes the `Fx07`
effect `Vx ← DT` regardless of its low byte; the later F arms are reached
exactly by the opcodes in [0xFF08, 0xFF65], partitioned as wait-key
[0xFF08, 0xFF0A], set-DT [0xFF0B, 0xFF15], set-ST [0xFF16, 0xFF18],
add-to-I [0xFF19, 0xFF1E], font [0xFF1F, 0xFF29], BCD [0xFF2A, 0xFF33],
register-store [0xFF34, 0xFF55], register-load [0xFF56, 0xFF65] — not only
by the eight `x = F` encodings. -/
theorem C10_range_dispatch :
    (∀ (m : Machine) (op : Nat), 0xF007 ≤ op → op ≤ 0xFF07 →
        process_opcode m op =
          .ok { m with v := writeV m.v (Nat.land op 0x0F00 >>> 8) m.dt })
    ∧ (∀ op : Nat, isLateF (armOf op) = true ↔ (0xFF08 ≤ op ∧ op ≤ 0xFF65))
    ∧ (∀ op : Nat, 0xFF08 ≤ op → op ≤ 0xFF0A → armOf op = Arm.ld_key)
    ∧ (∀ op : Nat, 0xFF0B ≤ op → op ≤ 0xFF15 → armOf op = Arm.set_dt)
    ∧ (∀ op : Nat, 0xFF16 ≤ op → op ≤ 0xFF18 → armOf op = Arm.set_st)
    ∧ (∀ op : Nat, 0xFF19 ≤ op → op ≤ 0xFF1E → armOf op = Arm.add_i)
    ∧ (∀ op : Nat, 0xFF1F ≤ op → op ≤ 0xFF29 → armOf op = Arm.ld_font)
    ∧ (∀ op : Nat, 0xFF2A ≤ op → op ≤ 0xFF33 → armOf op = Arm.bcd)
    ∧ (∀ op : Nat, 0xFF34 ≤ op → op ≤ 0xFF55 → armOf op = Arm.st_regs)
    ∧ (∀ op : Nat, 0xFF56 ≤ op → op ≤ 0xFF65 → armOf op = Arm.ld_regs) :=
  ⟨process_ld_dt, isLateF_armOf_iff, armOf_r33, armOf_r34, armOf_r35,
   armOf_r36, armOf_r37, armOf_r38, armOf_r39, armOf_r40⟩

/-- C10 witness: `0xF033` (a `Fx33`-shaped opcode) executes `V0 ← DT`, and
`0xFF08` reaches the wait-key arm. -/
theorem C10_range_dispatch_witness :
    process_opcode machBcd 0xF033 =
      .ok { machBcd with v := writeV machBcd.v 0 machBcd.dt }
    ∧ isLateF (armOf 0xFF08) = true
    ∧ armOf 0xFF08 = Arm.ld_key :=
  ⟨C10_range_dispatch.1 machBcd 0xF033 (by decide) (by decide),
   (C10_range_dispatch.2.1 0xFF08).mpr (by decide),
   C10_range_dispatch.2.2.1 0xFF08 (by decide) (by decide)⟩

/-- C10 counterexample: opcode `0xFF08` — not one of the eight `x = F`
encodings the claim lists — reaches the wait-key arm. -/
theorem C10_counterexample :
    armOf 0xFF08 = Arm.ld_key
    ∧ 0xFF08 ∉ ([0xFF0A, 0xFF15, 0xFF18, 0xFF1E, 0xFF29, 0xFF33,
        0xFF55, 0xFF65] : List Nat) :=
  ⟨rfl, by decide⟩


end Chip8
